import Mathlib

/-!
Verification development for the hummbl-dev federation task router.

The definitions below are a shallow embedding of the routing core:

* namespace `RouteV3` embeds `scripts/route_task_v3.py` — the tokenizer,
  the TF-IDF index builder, the sparse cosine similarity, the keyword /
  complexity scorers and the ensemble `route` function.
* namespace `Predictor` embeds `.federation/predictor/feature_extractor.py`,
  `.federation/predictor/similarity_engine.py` and
  `.federation/predictor/historical_learner.py` — the feature extractor,
  the agent-profile store with its completion update, and the historical
  learner with its duplicate-suppressing learning log.

Modelling conventions:

* Python floats are modelled as exact rationals (`ℚ`); every numeric
  literal of the source (0.35, 0.8, 0.01, …) is exactly representable.
  The single genuinely irrational operation, `math.sqrt` inside cosine
  similarity and `math.log` inside IDF computation, is modelled over `ℝ`.
* Python dicts keyed by agent name are modelled as association lists or
  as functions out of `String`; dict iteration order is the fixed agent
  registry order of the source.
* `str.lower` is modelled as ASCII case folding (`Char.toLower`); the
  keyword and stop-word tables of the source are all ASCII.
* Network and filesystem effects are modelled as explicit inputs: the
  result of `get_ollama_similarities` is an `Option` argument (`none` =
  provider unavailable), and the on-disk TF-IDF index is an `Option`
  argument (`none` = `INDEX_PATH` missing).
-/

namespace RouteV3

/-- Characters matched by the regex class `[a-z]` of `tokenize`. -/
def isLowerAlpha (c : Char) : Bool := 'a' ≤ c && c ≤ 'z'

/-- Lowercase a string character-wise, modelling `str.lower` on ASCII input. -/
def lowerStr (s : String) : List Char := s.data.map Char.toLower

/-- Maximal runs of characters satisfying `p`, in order; the accumulator
holds the current run reversed.  This models `re.findall` with the
pattern `p+`. -/
def runsByAux (p : Char → Bool) : List Char → List Char → List (List Char)
  | acc, [] => if acc.isEmpty then [] else [acc.reverse]
  | acc, c :: rest =>
    if p c then runsByAux p (c :: acc) rest
    else if acc.isEmpty then runsByAux p [] rest
    else acc.reverse :: runsByAux p [] rest

/-- Maximal runs of characters satisfying `p`. -/
def runsBy (p : Char → Bool) (l : List Char) : List (List Char) :=
  runsByAux p [] l

/-- Embedding of `re.findall(r'[a-z]+', text)`: the maximal runs of
lowercase ASCII letters. -/
def asciiRuns (l : List Char) : List (List Char) := runsBy isLowerAlpha l

/-- Stop-word set `STOPWORDS` of `route_task_v3.py` (a Python `set`;
listed here sorted, membership is all that matters). -/
def STOPWORDS : List String := [
    "a", "after", "all", "an", "and", "any",
    "are", "as", "at", "be", "because", "been",
    "before", "being", "both", "but", "by", "can",
    "could", "did", "do", "does", "during", "each",
    "either", "every", "few", "for", "from", "had",
    "has", "have", "i", "if", "in", "into",
    "is", "it", "just", "may", "me", "might",
    "more", "most", "my", "neither", "no", "nor",
    "not", "of", "on", "only", "or", "other",
    "own", "same", "shall", "should", "so", "some",
    "such", "than", "that", "the", "these", "this",
    "those", "through", "to", "too", "us", "very",
    "was", "we", "were", "when", "will", "with",
    "would", "yet"]

/-- Embedding of `tokenize` of `route_task_v3.py`: lowercase, extract
maximal `[a-z]+` runs, keep tokens that are not stop-words and have
length greater than one. -/
def tokenize (text : String) : List String :=
  ((asciiRuns (lowerStr text)).map fun r => String.mk r).filter
    fun t => !(STOPWORDS.contains t) && decide (1 < t.length)

/-- Embedding of `len(task.split())`: the number of maximal runs of
non-whitespace characters. -/
def wordCount (text : String) : Nat :=
  (runsBy (fun c => !c.isWhitespace) text.data).length

/-- Kernel-computable maximum on rationals, modelling Python `max`. -/
def qmax (a b : ℚ) : ℚ := if a ≤ b then b else a

/-- Kernel-computable minimum on rationals, modelling Python `min`. -/
def qmin (a b : ℚ) : ℚ := if a ≤ b then a else b

/-- Boolean prefix check on character lists. -/
def isPrefixOfB : List Char → List Char → Bool
  | [], _ => true
  | _ :: _, [] => false
  | a :: as, b :: bs => a == b && isPrefixOfB as bs

/-- Boolean substring check on character lists, modelling the Python
operator `needle in haystack` (the empty needle always matches). -/
def isSubB (n : List Char) : List Char → Bool
  | [] => isPrefixOfB n []
  | c :: rest => isPrefixOfB n (c :: rest) || isSubB n rest

/-- Substring check on strings. -/
def containsSub (needle haystack : String) : Bool :=
  isSubB needle.data haystack.data

/-- One entry of `AGENT_TAXONOMY`. -/
structure TaxEntry where
  keywords : List String
  phrase_patterns : List String
  negative_keywords : List String
  weight : ℚ
  complexity_bias : String

/-- Defaults produced by `taxonomy.get(agent, {})` followed by the
per-field `.get(..., default)` calls of the source. -/
def TaxEntry.empty : TaxEntry :=
  { keywords := [], phrase_patterns := [], negative_keywords := []
    weight := 1, complexity_bias := "medium" }

def kimiTaxonomy : TaxEntry where
  keywords := [
    "implement", "build", "deploy", "fix", "refactor", "test",
    "create", "install", "migrate", "debug", "execute", "run",
    "scaffold", "configure", "setup", "ci", "cd", "pipeline",
    "docker", "kubernetes", "infrastructure", "devops", "shell", "script",
    "automate", "endpoint", "api", "crud", "database", "parallel",
    "multiple files", "batch"]
  phrase_patterns := [
    "across multiple", "across all", "across three", "then implement", "then build", "integrate",
    "set up", "batch process", "then deploy"]
  negative_keywords := [
    "from scratch", "single module", "focused", "draft", "sketch", "brainstorm",
    "research", "analyze", "document", "compare", "evaluate trade", "deep dive",
    "summarize", "quick fix", "inline", "hint", "rename", "small change",
    "snippet"]
  weight := 1
  complexity_bias := "high"

def claudeTaxonomy : TaxEntry where
  keywords := [
    "research", "analyze", "document", "architecture", "design", "compare",
    "evaluate", "review", "deep dive", "explain", "summarize", "assess",
    "strategy", "plan", "rfc", "adr", "trade-off", "pros cons",
    "long-term", "security audit", "threat model", "literature", "specification", "whitepaper",
    "decision record", "technical debt"]
  phrase_patterns := [
    "evaluate trade", "pros and cons", "deep dive into", "compare vs", "assess the", "create a plan",
    "strategy for", "research into", "analyze the", "document the", "architecture decision", "comprehensive architecture",
    "assess technical", "debt and create"]
  negative_keywords := [
    "implement", "build", "deploy", "fix", "create", "migrate",
    "quick", "snippet", "inline", "draft", "sketch", "mock"]
  weight := 1
  complexity_bias := "high"

def copilotTaxonomy : TaxEntry where
  keywords := [
    "review", "quick", "snippet", "complete", "suggest", "inline",
    "hint", "type", "rename", "extract", "refactor", "single file",
    "function", "class", "method", "variable", "format", "lint",
    "clean", "tidy", "small change"]
  phrase_patterns := [
    "quick fix", "small change", "rename the", "inline hint", "extract this", "complete this",
    "type definition", "format this", "clean up", "suggest improvement"]
  negative_keywords := [
    "across", "multiple", "all files", "entire", "architecture", "research",
    "analyze", "document", "deploy", "infrastructure", "design pattern", "strategy"]
  weight := 1
  complexity_bias := "low"

def codexTaxonomy : TaxEntry where
  keywords := [
    "build", "implement", "feature", "module", "service", "endpoint",
    "autonomous", "end to end", "from scratch", "single module", "focused", "api",
    "crud", "websocket", "oauth", "payment", "migration", "middleware",
    "caching", "redis", "upload", "validation"]
  phrase_patterns := [
    "from scratch", "end to end", "single module", "focused module", "build the", "implement the",
    "create the", "module for", "service for", "autonomous implementation"]
  negative_keywords := [
    "across", "multiple", "then implement", "then build", "integrate", "research",
    "analyze", "quick fix", "inline", "draft", "sketch"]
  weight := 1
  complexity_bias := "medium"

def ollamaTaxonomy : TaxEntry where
  keywords := [
    "draft", "sketch", "prototype", "brainstorm", "iterate", "offline",
    "local", "fast", "quick draft", "rough", "experiment", "try",
    "mock", "stub", "placeholder", "template", "boilerplate", "generate ideas"]
  phrase_patterns := [
    "draft the", "sketch out", "brainstorm", "prototype of", "rough draft", "quick draft",
    "template for", "boilerplate", "mock the", "stub for", "placeholder for", "stub out",
    "generate ideas", "experiment with"]
  negative_keywords := [
    "implement", "build", "deploy", "fix", "migrate", "debug",
    "architecture", "research", "analyze", "end to end", "from scratch"]
  weight := 1
  complexity_bias := "low"

/-- The agent taxonomy `AGENT_TAXONOMY`, in source (dict insertion) order. -/
def AGENT_TAXONOMY : List (String × TaxEntry) :=
  [("kimi", kimiTaxonomy), ("claude", claudeTaxonomy), ("copilot", copilotTaxonomy),
   ("codex", codexTaxonomy), ("ollama", ollamaTaxonomy)]

/-- The agent registry: the keys of `AGENT_TAXONOMY`, in iteration order. -/
def AGENTS : List String := ["kimi", "claude", "copilot", "codex", "ollama"]

/-- Per-agent minimum confidence thresholds `AGENT_THRESHOLDS`. -/
def AGENT_THRESHOLDS : List (String × ℚ) :=
  [("kimi", 35/100), ("claude", 45/100), ("copilot", 30/100),
   ("codex", 40/100), ("ollama", 50/100)]

/-- The configured fallback agent `FALLBACK_AGENT`. -/
def FALLBACK_AGENT : String := "kimi"

/-- Embedding of `keyword_score`: keyword hits plus double-weighted phrase
hits over the keyword-list length, times the taxonomy weight, minus half a
point per negative keyword, floored at zero. -/
def keyword_score (task agent : String) : ℚ :=
  let task_lower := String.mk (lowerStr task)
  let taxonomy := ((AGENT_TAXONOMY.lookup agent).getD TaxEntry.empty)
  let hits : ℕ := (taxonomy.keywords.filter fun kw => containsSub kw task_lower).length
  let phrase_hits : ℕ := 2 * (taxonomy.phrase_patterns.filter fun p => containsSub p task_lower).length
  let penalty : ℚ := (1/2) * ((taxonomy.negative_keywords.filter fun ng => containsSub ng task_lower).length : ℚ)
  let max_possible : ℕ := max taxonomy.keywords.length 1
  let score : ℚ := (((hits : ℚ) + (phrase_hits : ℚ)) / (max_possible : ℚ)) * taxonomy.weight - penalty
  qmax score 0

/-- The denominator of `get_keyword_scores`: `sum(scores.values()) or 1.0`. -/
def kwTotal (task : String) : ℚ :=
  if (AGENTS.map fun a => keyword_score task a).sum = 0 then 1
  else (AGENTS.map fun a => keyword_score task a).sum

/-- Embedding of `get_keyword_scores`: each raw keyword score divided by
the total over all agents (1 when the total is 0). -/
def get_keyword_scores (task : String) : String → ℚ :=
  fun a => keyword_score task a / kwTotal task

/-- High-complexity indicator substrings of `complexity_score`. -/
def indicators_high : List String := [
    "across", "multiple", "all files", "refactor", "migrate",
    "architecture", "system", "infrastructure", "deploy",
    "research", "analyze", "deep dive", "comprehensive"]

/-- Low-complexity indicator substrings of `complexity_score`. -/
def indicators_low : List String := [
    "quick", "simple", "single", "small", "rename", "typo",
    "format", "lint", "draft", "sketch", "snippet"]

/-- Embedding of `complexity_score`: classify a task as low, medium or
high complexity from indicator hits and word count. -/
def complexity_score (task : String) : String :=
  let task_lower := String.mk (lowerStr task)
  let high_hits := (indicators_high.filter fun s => containsSub s task_lower).length
  let low_hits := (indicators_low.filter fun s => containsSub s task_lower).length
  let word_count := wordCount task
  if 2 ≤ high_hits ∨ 20 < word_count then "high"
  else if 2 ≤ low_hits ∨ word_count < 8 then "low"
  else "medium"

/-- Embedding of `complexity_match`: +0.2 for a bias match, −0.1 for the
extreme high/low mismatch, 0 otherwise. -/
def complexity_match (task agent : String) : ℚ :=
  let task_complexity := complexity_score task
  let agent_bias := ((AGENT_TAXONOMY.lookup agent).getD TaxEntry.empty).complexity_bias
  if task_complexity = agent_bias then 1/5
  else if (task_complexity = "high" ∧ agent_bias = "low") ∨
          (task_complexity = "low" ∧ agent_bias = "high") then -1/10
  else 0

/-- Embedding of `get_complexity_scores`. -/
def get_complexity_scores (task : String) : String → ℚ :=
  fun a => complexity_match task a


/-- One indexed document of the persisted TF-IDF index. -/
structure IndexedDoc where
  task : String
  agent : String
  tfidf : List (String × ℝ)

/-- The persisted TF-IDF index: IDF map plus indexed documents. -/
structure TfIdfIndex where
  idf : List (String × ℝ)
  documents : List IndexedDoc

/-- Stable insertion of one scored agent into a descending list: the new
element goes after every element with an equal or larger score.  This is
the ordering produced by Python `sorted(..., key=score, reverse=True)`,
which is stable. -/
def insertDesc : List (String × ℚ) → (String × ℚ) → List (String × ℚ)
  | [], x => [x]
  | y :: ys, x => if y.2 < x.2 then x :: y :: ys else y :: insertDesc ys x

/-- Stable descending sort by score. -/
def sortDesc (l : List (String × ℚ)) : List (String × ℚ) := l.foldl insertDesc []

/-- First element attaining the maximal score, modelling Python
max over dict keys, which keeps the first maximum in iteration order. -/
def argmaxFirst (l : List (String × ℚ)) : Option (String × ℚ) :=
  l.foldl (fun best x => match best with
    | none => some x
    | some b => if b.2 < x.2 then some x else some b) none

/-- Rounding to four decimal places, modelling `round(x, 4)`.  Python
uses round-half-even on binary floats; the claims only rely on rounding
being monotone and fixing 0 and 1, which both conventions satisfy. -/
def round4 (q : ℚ) : ℚ := (((q * 10000 + 1/2).floor : ℤ) : ℚ) / 10000

/-- The dictionary returned by `route`. -/
structure RouteResult where
  recommended_agent : String
  confidence : ℚ
  method : String
  tier : String
  weights : Option (ℚ × ℚ × ℚ × ℚ)
  scores : Option (List (String × ℚ))
  error : Option String
deriving DecidableEq

/-- The early-return dictionary emitted when the embedding signal was
requested but unavailable and the keyword weight is zero. -/
def errorResult : RouteResult :=
  { recommended_agent := "kimi", confidence := 0, method := "fallback-error",
    tier := "error", weights := none, scores := none,
    error := some "Ollama unavailable and no keyword signal" }

/-- State of the `route` body after signal collection and weight
rebalancing: the tier string, the four weights and the four optional
per-agent signal score maps (`none` = signal absent). -/
structure Ctx where
  tier : String
  w_embed : ℚ
  w_kw : ℚ
  w_tfidf : ℚ
  w_cx : ℚ
  embed_scores : Option (String → ℚ)
  kw_scores : Option (String → ℚ)
  tfidf_scores : Option (String → ℚ)
  cx_scores : Option (String → ℚ)

/-- Default weight tuples per tier. -/
def tierDefault (tier : String) : ℚ × ℚ × ℚ × ℚ :=
  if tier = "tier1" then (1, 0, 0, 0)
  else if tier = "tier2" then (0, 1/2, 3/10, 1/5)
  else if tier = "tier3" then (0, 1, 0, 0)
  else (35/100, 45/100, 1/5, 0)

/-- Blended final scores, one entry per registry agent in order:
each available signal contributes its weight times its score. -/
def finalScoresList (c : Ctx) : List (String × ℚ) :=
  AGENTS.map fun a =>
    (a, (match c.embed_scores with | some e => c.w_embed * e a | none => 0)
      + (match c.kw_scores with | some k => c.w_kw * k a | none => 0)
      + (match c.tfidf_scores with | some t => c.w_tfidf * t a | none => 0)
      + (match c.cx_scores with | some x => c.w_cx * x a | none => 0))

/-- The below-threshold branch of `route`: adopt the runner-up when it
meets its own threshold and trails by less than 0.1, otherwise adopt the
configured fallback agent.  Returns (winner, confidence, method suffix). -/
def gateFallback (fs : List (String × ℚ)) (confidence : ℚ) : String × ℚ × String :=
  let fallbackConf := (fs.lookup FALLBACK_AGENT).getD (3/10)
  match sortDesc fs with
  | _ :: (second_agent, second_score) :: _ =>
    if ((AGENT_THRESHOLDS.lookup second_agent).getD (2/5) ≤ second_score ∧
        confidence - second_score < 1/10) then
      (second_agent, second_score, "-threshold-adjusted")
    else (FALLBACK_AGENT, fallbackConf, "-fallback")
  | _ => (FALLBACK_AGENT, fallbackConf, "-fallback")

/-- Blending, threshold gate and result assembly of `route` (everything
after signal collection). -/
def buildResult (c : Ctx) : RouteResult :=
  let fs := finalScoresList c
  let top := (argmaxFirst fs).getD ("kimi", 0)
  let threshold := (AGENT_THRESHOLDS.lookup top.1).getD (2/5)
  let gated := if top.2 < threshold then gateFallback fs top.2 else (top.1, top.2, "")
  { recommended_agent := gated.1
    confidence := round4 gated.2.1
    method := c.tier ++ "-ensemble" ++ gated.2.2
    tier := c.tier
    weights := some (c.w_embed, c.w_kw, c.w_tfidf, c.w_cx)
    scores := some ((sortDesc fs).map fun p => (p.1, round4 p.2))
    error := none }

/-- Signal collection and weight rebalancing of `route`.  `none` is the
early `fallback-error` return.  `embedSig` stands for the value of
`get_ollama_similarities(task)` (`none` = Ollama unavailable), `tfidfSig`
for the per-agent map computed by `get_tfidf_scores` from the index in
use and `top_k` (its values only matter when the TF-IDF signal is
consulted), and `diskIndex` for the contents of `INDEX_PATH` (`none` =
file missing). -/
def routeCtx (task : String) (index : Option TfIdfIndex)
    (weights? : Option (ℚ × ℚ × ℚ × ℚ)) (tier : String)
    (embedSig : Option (String → ℚ)) (tfidfSig : String → ℚ)
    (diskIndex : Option TfIdfIndex) : Option Ctx :=
  let w := weights?.getD (tierDefault tier)
  let we := w.1
  let wk := w.2.1
  let wt := w.2.2.1
  let wc := w.2.2.2
  let loaded :=
    if index.isNone ∧ 0 < wt then
      match diskIndex with
      | some _ => (true, tier, wk, wt)
      | none => if wk = 0 ∧ we = 0 then (false, "tier3", (1 : ℚ), (0 : ℚ))
                else (false, tier, wk, wt)
    else (index.isSome, tier, wk, wt)
  let indexSome := loaded.1
  let tier1 := loaded.2.1
  let wk1 := loaded.2.2.1
  let wt1 := loaded.2.2.2
  let embed_scores := if 0 < we then embedSig else none
  let kw_scores := if 0 < wk1 then some (get_keyword_scores task) else none
  let tfidf_scores := if 0 < wt1 ∧ indexSome then some tfidfSig else none
  let cx_scores := if 0 < wc then some (get_complexity_scores task) else none
  if 0 < we ∧ embed_scores.isNone then
    if 0 < wk1 then
      some { tier := "tier2-keyword-fallback", w_embed := 0, w_kw := 4/5,
             w_tfidf := 1/5, w_cx := wc, embed_scores := embed_scores,
             kw_scores := kw_scores, tfidf_scores := tfidf_scores,
             cx_scores := cx_scores }
    else none
  else
    some { tier := tier1, w_embed := we, w_kw := wk1, w_tfidf := wt1,
           w_cx := wc, embed_scores := embed_scores, kw_scores := kw_scores,
           tfidf_scores := tfidf_scores, cx_scores := cx_scores }

/-- Embedding of `route`: signal collection and rebalancing via
`routeCtx`, then blending, threshold gate and result assembly via
`buildResult`; the `none` context is the early `fallback-error` return. -/
def route (task : String) (index : Option TfIdfIndex)
    (weights? : Option (ℚ × ℚ × ℚ × ℚ)) (tier : String)
    (embedSig : Option (String → ℚ)) (tfidfSig : String → ℚ)
    (diskIndex : Option TfIdfIndex) : RouteResult :=
  match routeCtx task index weights? tier embedSig tfidfSig diskIndex with
  | none => errorResult
  | some c => buildResult c


/-- One `{task, agent}` record of the training corpus. -/
structure TrainingItem where
  task : String
  agent : String
deriving DecidableEq

/-- Document frequency of `build_tfidf_index`: the number of training
documents whose token set contains `t`. -/
def df (data : List TrainingItem) (t : String) : ℕ :=
  (data.filter fun it => (tokenize it.task).contains t).length

/-- The IDF value assigned by `build_tfidf_index`:
`log((N + 1) / (df(t) + 1)) + 1`. -/
noncomputable def idfVal (data : List TrainingItem) (t : String) : ℝ :=
  Real.log (((data.length : ℝ) + 1) / ((df data t : ℝ) + 1)) + 1

/-- The IDF map of the built index: defined exactly on the terms with
positive document frequency (the keys of the `df` counter). -/
noncomputable def idfMap (data : List TrainingItem) (t : String) : Option ℝ :=
  if 0 < df data t then some (idfVal data t) else none

/-- Maximal term count of a document, `max(tf.values()) if tf else 1`.
For a non-empty token list every count of a deduplicated token is at
least 1, so taking the maximum with 1 agrees with the source on both
branches. -/
def maxTF (tokens : List String) : ℕ :=
  Nat.max 1 ((tokens.dedup.map fun t => tokens.count t).foldr Nat.max 0)

/-- The TF-IDF vector stored for one document by `build_tfidf_index`:
defined on the document's tokens, with value max-normalised term
frequency times `idf.get(token, 1.0)`. -/
noncomputable def docTfidf (data : List TrainingItem) (it : TrainingItem) (t : String) :
    Option ℝ :=
  let tokens := tokenize it.task
  if tokens.contains t then
    some (((tokens.count t : ℝ) / (maxTF tokens : ℝ)) * ((idfMap data t).getD 1))
  else none

/-- A sparse vector as manipulated by `cosine_similarity_tfidf`: a
finite key set together with the stored weight of each key. -/
structure SparseVec where
  keys : Finset String
  val : String → ℝ

/-- Embedding of `cosine_similarity_tfidf`: dot product over the common
keys divided by the product of the full magnitudes, with 0 for disjoint
key sets and for zero magnitudes. -/
noncomputable def cosine_similarity_tfidf (u v : SparseVec) : ℝ :=
  if u.keys ∩ v.keys = ∅ then 0
  else if Real.sqrt (∑ k ∈ u.keys, u.val k ^ 2) = 0
       ∨ Real.sqrt (∑ k ∈ v.keys, v.val k ^ 2) = 0 then 0
  else (∑ k ∈ u.keys ∩ v.keys, u.val k * v.val k)
        / (Real.sqrt (∑ k ∈ u.keys, u.val k ^ 2)
            * Real.sqrt (∑ k ∈ v.keys, v.val k ^ 2))

end RouteV3

namespace Predictor

/-- Word characters of the Python regex word boundary `\\b` (over the
lowercased ASCII inputs handled here: lowercase letters, digits and the
underscore). -/
def isWordChar (c : Char) : Bool := RouteV3.isLowerAlpha c || c.isDigit || c == '_'

/-- Stop-word set `FeatureExtractor.STOP_WORDS` (a Python set; listed
sorted and deduplicated, membership is all that matters). -/
def STOP_WORDS : List String := [
    "a", "afraid", "after", "again", "age", "ago",
    "agree", "air", "allow", "almost", "along", "also",
    "always", "am", "among", "an", "and", "anger",
    "another", "any", "apple", "are", "arm", "around",
    "arrange", "arrive", "as", "asked", "at", "atom",
    "away", "baby", "back", "bad", "ball", "band",
    "bank", "bar", "basic", "bat", "be", "bear",
    "beat", "because", "bed", "began", "believe", "bell",
    "below", "between", "big", "block", "blood", "blow",
    "blue", "board", "boat", "bone", "born", "both",
    "bottom", "bought", "branch", "bread", "break", "bright",
    "bring", "broad", "broke", "brother", "brought", "brown",
    "built", "burn", "busy", "but", "buy", "by",
    "came", "camp", "capital", "captain", "card", "case",
    "cat", "catch", "caught", "cell", "cent", "century",
    "chair", "chance", "character", "charge", "chart", "check",
    "chick", "chief", "child", "choose", "chord", "circle",
    "claim", "clean", "climb", "clock", "clothes", "cloud",
    "coast", "coat", "collect", "colony", "column", "come",
    "common", "company", "compare", "condition", "connect", "consider",
    "consonant", "continent", "continue", "control", "cook", "cool",
    "copy", "corn", "corner", "cost", "cotton", "count",
    "course", "cow", "crease", "create", "crop", "crowd",
    "current", "cut", "dad", "dance", "danger", "day",
    "dead", "deal", "dear", "death", "decide", "decimal",
    "deep", "degree", "depend", "describe", "desert", "design",
    "determine", "dictionary", "die", "different", "difficult", "discuss",
    "distant", "divide", "division", "do", "doctor", "does",
    "dollar", "dont", "double", "dream", "dress", "drink",
    "drop", "dry", "duck", "each", "ear", "earth",
    "east", "edge", "effect", "egg", "eight", "either",
    "electric", "element", "else", "end", "enemy", "energy",
    "engine", "enter", "equal", "equate", "especially", "even",
    "evening", "event", "every", "exact", "except", "excite",
    "exercise", "expect", "experience", "experiment", "fair", "famous",
    "fat", "father", "favor", "fear", "feed", "fell",
    "felt", "few", "fig", "fight", "fill", "finger",
    "finish", "fit", "flat", "floor", "flow", "flower",
    "foot", "for", "force", "forest", "forward", "found",
    "fraction", "fresh", "from", "fruit", "full", "fun",
    "game", "garden", "gas", "gather", "general", "gentle",
    "get", "give", "glad", "glass", "go", "gold",
    "gone", "good", "got", "grand", "grass", "gray",
    "great", "grew", "grow", "guess", "guide", "gun",
    "had", "hair", "hand", "happy", "has", "hat",
    "have", "he", "head", "heart", "heat", "heavy",
    "held", "help", "her", "here", "hill", "him",
    "history", "hit", "hole", "home", "hope", "hot",
    "house", "how", "huge", "human", "hunt", "hurry",
    "ice", "if", "imagine", "in", "include", "indicate",
    "industry", "insect", "instant", "instrument", "into", "invent",
    "iron", "is", "island", "it", "its", "job",
    "join", "joy", "jump", "just", "kept", "key",
    "kill", "kind", "knew", "lady", "lake", "language",
    "large", "last", "laugh", "least", "led", "left",
    "leg", "length", "level", "lie", "lift", "like",
    "line", "liquid", "live", "locate", "log", "lone",
    "look", "lost", "lot", "loud", "magnet", "major",
    "make", "many", "market", "mass", "master", "match",
    "material", "matter", "me", "meant", "meat", "meet",
    "melody", "men", "metal", "method", "middle", "might",
    "milk", "million", "mine", "miss", "mix", "modern",
    "molecule", "moment", "month", "moon", "more", "most",
    "motion", "mount", "mouth", "move", "much", "must",
    "name", "nation", "natural", "nature", "necessary", "neck",
    "neighbor", "never", "new", "next", "nine", "noise",
    "noon", "nor", "nose", "number", "object", "observe",
    "occur", "of", "off", "offer", "office", "often",
    "oil", "old", "on", "operate", "opposite", "organ",
    "original", "our", "out", "own", "oxygen", "page",
    "paint", "pair", "paragraph", "parent", "part", "particular",
    "party", "past", "path", "pay", "perhaps", "period",
    "phrase", "pick", "pitch", "place", "plane", "planet",
    "please", "plural", "poem", "poor", "populate", "position",
    "possible", "post", "practice", "prepare", "present", "pretty",
    "print", "probable", "process", "proper", "property", "protect",
    "prove", "provide", "push", "put", "quart", "quiet",
    "quite", "quotient", "race", "radio", "rail", "raise",
    "ran", "range", "rather", "read", "reason", "receive",
    "record", "region", "repeat", "reply", "represent", "require",
    "result", "rich", "ride", "right", "ring", "rise",
    "roll", "root", "rope", "rose", "row", "rub",
    "safe", "said", "sail", "salt", "sand", "sat",
    "save", "saw", "say", "scale", "score", "search",
    "season", "seat", "section", "seed", "segment", "select",
    "sell", "send", "sense", "sent", "separate", "set",
    "settle", "seven", "shall", "shape", "share", "sharp",
    "she", "sheet", "shell", "shine", "shoe", "shop",
    "shore", "should", "shoulder", "shout", "show", "sight",
    "sign", "silent", "silver", "similar", "single", "sister",
    "sit", "size", "skill", "skin", "sky", "slave",
    "sleep", "slip", "small", "smell", "smile", "snow",
    "so", "soft", "soil", "soldier", "solution", "solve",
    "some", "something", "son", "sound", "speak", "speech",
    "speed", "spend", "spoke", "spot", "spread", "spring",
    "square", "stand", "station", "stay", "stead", "steam",
    "steel", "stick", "still", "stone", "store", "straight",
    "strange", "stream", "stretch", "string", "student", "subject",
    "substance", "subtract", "success", "such", "sudden", "suffix",
    "sugar", "suggest", "suit", "summer", "supply", "support",
    "surface", "surprise", "swim", "syllable", "symbol", "system",
    "take", "tall", "team", "teeth", "tell", "temperature",
    "term", "test", "thank", "that", "the", "their",
    "them", "then", "these", "they", "thick", "thin",
    "things", "think", "third", "this", "those", "thought",
    "thousands", "three", "through", "throw", "thus", "tie",
    "tiny", "tire", "to", "together", "tone", "too",
    "tool", "total", "touch", "track", "trade", "train",
    "triangle", "trip", "trouble", "truck", "try", "tube",
    "turned", "twenty", "two", "type", "under", "up",
    "us", "valley", "value", "vary", "very", "view",
    "village", "visit", "wall", "was", "wash", "wave",
    "wear", "weather", "weight", "well", "went", "what",
    "wheel", "where", "whether", "which", "while", "whose",
    "why", "wide", "wife", "wild", "will", "win",
    "window", "wing", "winter", "wire", "wish", "with",
    "woman", "women", "wonder", "wont", "words", "work",
    "would", "write", "written", "wrong", "wrote", "yard",
    "years", "yellow", "yes", "yet"]




/-- Embedding of `FeatureExtractor.tokenize`: lowercase, match
`\\b[a-zA-Z]+\\b` (maximal word-character runs consisting solely of
letters), and keep words that are not stop-words and have length
greater than two. -/
def tokenize (text : String) : List String :=
  (((RouteV3.runsBy isWordChar (RouteV3.lowerStr text)).filter fun r =>
      r.all RouteV3.isLowerAlpha).map fun r => String.mk r).filter
    fun w => !(STOP_WORDS.contains w) && decide (2 < w.length)

/-- Embedding of `FeatureExtractor.extract_ngrams`: underscore-joined
windows of `n` consecutive tokens. -/
def extract_ngrams (tokens : List String) (n : ℕ) : List String :=
  if tokens.length < n then []
  else (List.range (tokens.length - n + 1)).map fun i =>
    String.intercalate "_" ((tokens.drop i).take n)

/-- Embedding of `FeatureExtractor.compute_tf`: max-normalised term
frequencies, keyed in first-occurrence order like a `Counter`. -/
def compute_tf (tokens : List String) : List (String × ℚ) :=
  if tokens = [] then []
  else
    let max_count := (tokens.dedup.map fun t => tokens.count t).foldr Nat.max 0
    tokens.dedup.map fun t => (t, (tokens.count t : ℚ) / (max_count : ℚ))

/-- Embedding of `FeatureExtractor.vectorize`: tokens (plus bigrams and
trigrams when `use_ngrams`), max-normalised TF, times the cached IDF
with default 1.0 for unseen terms.  The persisted `idf_cache` is an
explicit argument. -/
def vectorize (idf_cache : List (String × ℚ)) (text : String) (use_ngrams : Bool) :
    List (String × ℚ) :=
  let tokens := tokenize text
  let all_terms :=
    if use_ngrams then tokens ++ extract_ngrams tokens 2 ++ extract_ngrams tokens 3
    else tokens
  if all_terms = [] then []
  else (compute_tf all_terms).map fun p => (p.1, p.2 * ((idf_cache.lookup p.1).getD 1))

/-- Embedding of Python `str.strip`: drop leading and trailing
whitespace. -/
def strip (s : String) : String :=
  String.mk (((s.data.dropWhile Char.isWhitespace).reverse.dropWhile
    Char.isWhitespace).reverse)

/-- Embedding of the `tfidf_vector` field of
`FeatureExtractor.vectorize_task`: vectorize `f"{task_type} {task_description}".strip()`
with n-grams on.  The `domains`, `complexity` and count fields of the
returned dict are not consumed by the profile update and are omitted. -/
def vectorize_task (idf_cache : List (String × ℚ)) (task_description task_type : String) :
    List (String × ℚ) :=
  vectorize idf_cache (strip (task_type ++ " " ++ task_description)) true

/-- One entry of `SimilarityEngine.AGENT_DEFINITIONS`. -/
structure AgentDefinition where
  emoji : String
  specialty : String
  keywords : List String
  domains : List String
  base_success_rate : ℚ
  cost_tier : String

def claudeDefinition : AgentDefinition where
  emoji := "🔮"
  specialty := "Research & Analysis"
  keywords := [
    "research", "analyze", "architecture", "design", "document", "investigate",
    "explore", "study", "review", "assess", "evaluate", "recommend",
    "strategy", "planning", "structure"]
  domains := [
    "research", "design", "documentation", "architecture"]
  base_success_rate := 23/25
  cost_tier := "medium"

def kimiDefinition : AgentDefinition where
  emoji := "🔧"
  specialty := "Execution"
  keywords := [
    "implement", "code", "build", "develop", "create", "write",
    "fix", "debug", "test", "deploy", "script", "configure",
    "setup", "install", "run", "execute", "automate"]
  domains := [
    "implementation", "testing", "deployment"]
  base_success_rate := 47/50
  cost_tier := "low"

def copilotDefinition : AgentDefinition where
  emoji := "💭"
  specialty := "Thinking & Planning"
  keywords := [
    "plan", "think", "structure", "organize", "review", "check",
    "validate", "verify", "improve", "refactor", "suggest", "advise",
    "coordinate", "facilitate"]
  domains := [
    "planning", "review"]
  base_success_rate := 22/25
  cost_tier := "free"

def ollamaDefinition : AgentDefinition where
  emoji := "🏠"
  specialty := "Local Drafting"
  keywords := [
    "draft", "prototype", "experiment", "try", "sketch", "outline",
    "mockup", "template", "sample", "example"]
  domains := [
    "drafting", "prototyping"]
  base_success_rate := 3/4
  cost_tier := "free"

/-- Embedding of the dataclass `AgentProfile`. -/
structure AgentProfile where
  agent_id : String
  emoji : String
  specialty : String
  capability_vector : List (String × ℚ)
  success_rate : ℚ
  avg_task_duration : ℚ
  task_count : ℕ
  domains : List String
  keywords : List String
deriving DecidableEq

/-- Python dict assignment `d[k] = v` on an association list: replace
the value when the key is present, append otherwise. -/
def dictAssign (cv : List (String × ℚ)) (k : String) (v : ℚ) : List (String × ℚ) :=
  if cv.any fun p => p.1 == k then cv.map fun p => if p.1 == k then (p.1, v) else p
  else cv ++ [(k, v)]

/-- The agent registry `SimilarityEngine.AGENT_DEFINITIONS`, in source
(dict insertion) order. -/
def AGENT_DEFINITIONS : List (String × AgentDefinition) :=
  [("claude", claudeDefinition), ("kimi", kimiDefinition),
   ("copilot", copilotDefinition), ("ollama", ollamaDefinition)]

/-- Words of `definition["specialty"].lower().split()`. -/
def specialtyTerms (specialty : String) : List String :=
  (RouteV3.runsBy (fun c => !c.isWhitespace) (RouteV3.lowerStr specialty)).map
    fun r => String.mk r

/-- Embedding of `SimilarityEngine._build_capability_vector`: keywords
at weight 1.0, then domain terms at 0.8, then specialty terms other
than "&" at 0.9, with later assignments overwriting earlier ones as in
a Python dict. -/
def build_capability_vector (defn : AgentDefinition) : List (String × ℚ) :=
  let v1 := defn.keywords.foldl (fun cv kw => dictAssign cv kw 1) []
  let v2 := defn.domains.foldl (fun cv d => dictAssign cv d (4/5)) v1
  (specialtyTerms defn.specialty).foldl
    (fun cv term => if term == "&" then cv else dictAssign cv term (9/10)) v2

/-- One step of the capability-vector update of
`update_profile_from_completion`: an existing entry is reinforced by
`0.01 · weight` capped at 1.0, a missing entry is inserted at
`0.1 · weight`. -/
def capabilityUpdate (cv : List (String × ℚ)) (term : String) (weight : ℚ) :
    List (String × ℚ) :=
  match cv.lookup term with
  | some old => cv.map fun q => if q.1 == term then (q.1, RouteV3.qmin 1 (old + (1/100) * weight)) else q
  | none => cv ++ [(term, (1/10) * weight)]

/-- Embedding of `SimilarityEngine.update_profile_from_completion`.
The returned boolean records whether `_save_profiles` was reached: the
method returns without touching or persisting anything when `agent_id`
has no profile.  The persisted `idf_cache` of the feature extractor is
an explicit argument. -/
def update_profile_from_completion (idf_cache : List (String × ℚ))
    (profiles : List (String × AgentProfile)) (agent_id task_description : String)
    (success : Bool) (duration_minutes : ℚ) :
    List (String × AgentProfile) × Bool :=
  match profiles.lookup agent_id with
  | none => (profiles, false)
  | some profile =>
    let task_count := profile.task_count + 1
    let success_rate :=
      (1 - 1/10) * profile.success_rate + (1/10) * (if success then (1 : ℚ) else 0)
    let avg_task_duration :=
      if task_count = 1 then duration_minutes
      else (profile.avg_task_duration * ((task_count : ℚ) - 1) + duration_minutes)
            / (task_count : ℚ)
    let task_vector := vectorize_task idf_cache task_description ""
    let capability_vector :=
      task_vector.foldl (fun cv p => capabilityUpdate cv p.1 p.2) profile.capability_vector
    let updated : AgentProfile :=
      { profile with
          task_count := task_count
          success_rate := success_rate
          avg_task_duration := avg_task_duration
          capability_vector := capability_vector }
    (profiles.map fun q => if q.1 == agent_id then (q.1, updated) else q, true)

/-- One entry of the historical learner's persisted learning log. -/
structure LogEntry where
  timestamp : String
  task_id : String
  agent_id : String
  success : Bool
  duration : ℚ
  learned : Bool
deriving DecidableEq

/-- A completed-queue task dict as read by the historical learner.
String fields model `task.get(key, "")` (empty string = missing); the
`id` field is an `Option` because the learner uses two different
defaults for a missing `id` key ("" in the duplicate check, "unknown"
in the learning record). -/
structure QTask where
  id : Option String
  status : String
  assigned_to : String
  completed_by : Option String
  description : String
  created_at : String
  started_at : String
  completed_at : String
deriving DecidableEq

/-- The learning record built by `extract_learning_data` (its
`timestamp`, `task_type` and `priority` fields are not consumed by
`learn_from_task`'s state update and are omitted). -/
structure LearnData where
  task_id : String
  description : String
  completed_by : String
  success : Bool
  duration_minutes : ℚ
deriving DecidableEq

/-- Embedding of `HistoricalLearner._calculate_duration`.  `parseTime`
abstracts `datetime.fromisoformat` on the Z-normalised timestamp string,
returning epoch seconds, `none` on a parse error. -/
def calc_duration (parseTime : String → Option ℚ) (t : QTask) : ℚ :=
  if t.completed_at = "" then 30
  else
    let start_time := if t.started_at ≠ "" then t.started_at else t.created_at
    if start_time = "" then 30
    else
      match parseTime start_time, parseTime t.completed_at with
      | some s, some e => RouteV3.qmax ((e - s) / 60) 1
      | _, _ => 30

/-- Embedding of `HistoricalLearner.extract_learning_data`: only tasks
with status `completed` and a non-empty completer are learnable;
`success` is always recorded as true. -/
def extract_learning_data (parseTime : String → Option ℚ) (t : QTask) :
    Option LearnData :=
  if t.status ≠ "completed" then none
  else
    let completed_by := t.completed_by.getD t.assigned_to
    if completed_by = "" then none
    else some { task_id := t.id.getD "unknown", description := t.description,
                completed_by := completed_by, success := true,
                duration_minutes := calc_duration parseTime t }

/-- The mutable state of a `HistoricalLearner`: the learning log plus
the profile store of its similarity engine. -/
structure LearnerState where
  learning_log : List LogEntry
  profiles : List (String × AgentProfile)
deriving DecidableEq

/-- Embedding of `HistoricalLearner.learn_from_task`: update the
completer's profile and append a learning-log entry (`now` models
`datetime.now().isoformat()`). -/
def learn_from_task (idf_cache : List (String × ℚ)) (now : String)
    (s : LearnerState) (ld : LearnData) : LearnerState :=
  { learning_log := s.learning_log ++
      [{ timestamp := now, task_id := ld.task_id, agent_id := ld.completed_by,
         success := ld.success, duration := ld.duration_minutes, learned := true }],
    profiles := (update_profile_from_completion idf_cache s.profiles ld.completed_by
      ld.description ld.success ld.duration_minutes).1 }

/-- The loop body of `HistoricalLearner.learn_from_all_completed` for
one scanned task: skip when the task id (with default "") already
appears in the learning log, skip when no learning data can be
extracted, otherwise learn. -/
def learnStep (idf_cache : List (String × ℚ)) (parseTime : String → Option ℚ)
    (now : String) (s : LearnerState) (t : QTask) : LearnerState :=
  let task_id := t.id.getD ""
  if s.learning_log.any fun e => e.task_id == task_id then s
  else
    match extract_learning_data parseTime t with
    | none => s
    | some ld => learn_from_task idf_cache now s ld

/-- Embedding of `HistoricalLearner.learn_from_all_completed` (the
returned statistics counters are diagnostics and are omitted; the state
evolution is the fold of `learnStep` over the scanned tasks in order). -/
def learn_from_all_completed (idf_cache : List (String × ℚ))
    (parseTime : String → Option ℚ) (now : String) (s : LearnerState)
    (tasks : List QTask) : LearnerState :=
  tasks.foldl (learnStep idf_cache parseTime now) s

end Predictor

/-! ### Helper lemmas -/

attribute [local semireducible] Rat.add Rat.mul Rat.sub Rat.inv Rat.ofScientific

namespace RouteV3

theorem qmax_eq_max (a b : ℚ) : qmax a b = max a b := by
  unfold qmax
  rcases le_or_lt a b with h | h
  · rw [if_pos h, max_eq_right h]
  · rw [if_neg (not_le.mpr h), max_eq_left h.le]

theorem qmax_nonneg_right (a : ℚ) : 0 ≤ qmax a 0 := by
  unfold qmax
  split
  · exact le_refl 0
  · exact le_of_not_le (by assumption)

theorem qmin_le_left (a b : ℚ) : qmin a b ≤ a := by
  unfold qmin
  split
  · exact le_refl a
  · exact le_of_not_le (by assumption)

theorem qmin_nonneg (a b : ℚ) (ha : 0 ≤ a) (hb : 0 ≤ b) : 0 ≤ qmin a b := by
  unfold qmin
  split <;> assumption

theorem keyword_score_nonneg (task agent : String) : 0 ≤ keyword_score task agent := by
  unfold keyword_score
  exact qmax_nonneg_right _

theorem kwTotal_pos (task : String) : 0 < kwTotal task := by
  unfold kwTotal
  have hs : 0 ≤ (AGENTS.map fun a => keyword_score task a).sum :=
    List.sum_nonneg fun x hx => by
      rcases List.mem_map.mp hx with ⟨a, _, rfl⟩
      exact keyword_score_nonneg task a
  split
  · norm_num
  · exact lt_of_le_of_ne hs (Ne.symm (by assumption))

theorem keyword_score_le_total (task : String) {a : String} (ha : a ∈ AGENTS) :
    keyword_score task a ≤ kwTotal task := by
  have hmem : keyword_score task a ∈ AGENTS.map fun x => keyword_score task x :=
    List.mem_map.mpr ⟨a, ha, rfl⟩
  have hle : keyword_score task a ≤ (AGENTS.map fun x => keyword_score task x).sum :=
    List.single_le_sum (fun x hx => by
      rcases List.mem_map.mp hx with ⟨b, _, rfl⟩
      exact keyword_score_nonneg task b) _ hmem
  unfold kwTotal
  split
  · have h0 : (AGENTS.map fun x => keyword_score task x).sum = 0 := by assumption
    calc keyword_score task a ≤ _ := hle
    _ = 0 := h0
    _ ≤ 1 := by norm_num
  · exact hle

theorem get_keyword_scores_nonneg (task a : String) : 0 ≤ get_keyword_scores task a :=
  div_nonneg (keyword_score_nonneg task a) (kwTotal_pos task).le

theorem get_keyword_scores_le_one (task : String) {a : String} (ha : a ∈ AGENTS) :
    get_keyword_scores task a ≤ 1 :=
  (div_le_one (kwTotal_pos task)).mpr (keyword_score_le_total task ha)

end RouteV3

namespace RouteV3

theorem mem_insertDesc {x y : String × ℚ} :
    ∀ {l : List (String × ℚ)}, x ∈ insertDesc l y → x = y ∨ x ∈ l := by
  intro l
  induction l with
  | nil =>
    intro hx
    simp only [insertDesc, List.mem_singleton] at hx
    exact Or.inl hx
  | cons z zs ih =>
    intro hx
    unfold insertDesc at hx
    split at hx
    · rcases List.mem_cons.mp hx with h | h
      · exact Or.inl h
      · exact Or.inr h
    · rcases List.mem_cons.mp hx with h | h
      · exact Or.inr (List.mem_cons.mpr (Or.inl h))
      · rcases ih h with h' | h'
        · exact Or.inl h'
        · exact Or.inr (List.mem_cons.mpr (Or.inr h'))

theorem mem_of_mem_sortDesc {x : String × ℚ} {l : List (String × ℚ)} :
    x ∈ sortDesc l → x ∈ l := by
  have general : ∀ (l : List (String × ℚ)) (acc : List (String × ℚ)),
      x ∈ l.foldl insertDesc acc → x ∈ acc ∨ x ∈ l := by
    intro l
    induction l with
    | nil => intro acc h; exact Or.inl h
    | cons z zs ih =>
      intro acc h
      rcases ih (insertDesc acc z) h with h' | h'
      · rcases mem_insertDesc h' with h'' | h''
        · exact Or.inr (List.mem_cons.mpr (Or.inl h''))
        · exact Or.inl h''
      · exact Or.inr (List.mem_cons.mpr (Or.inr h'))
  intro h
  rcases general l [] h with h' | h'
  · cases h'
  · exact h'

theorem argmaxFirst_mem {l : List (String × ℚ)} {x : String × ℚ} :
    argmaxFirst l = some x → x ∈ l := by
  have general : ∀ (l : List (String × ℚ)) (b : Option (String × ℚ)),
      l.foldl (fun best y => match best with
        | none => some y
        | some b => if b.2 < y.2 then some y else some b) b = some x →
      b = some x ∨ x ∈ l := by
    intro l
    induction l with
    | nil => intro b h; exact Or.inl h
    | cons z zs ih =>
      intro b h
      rcases ih _ h with h' | h'
      · cases b with
        | none =>
          simp only at h'
          exact Or.inr (List.mem_cons.mpr (Or.inl (Option.some_injective _ h').symm))
        | some w =>
          simp only at h'
          split at h'
          · exact Or.inr (List.mem_cons.mpr (Or.inl (Option.some_injective _ h').symm))
          · exact Or.inl h'
      · exact Or.inr (List.mem_cons.mpr (Or.inr h'))
  intro h
  rcases general l none h with h' | h'
  · cases h'
  · exact h'

theorem mem_of_lookup_eq_some {β : Type} {l : List (String × β)} {k : String} {v : β} :
    l.lookup k = some v → (k, v) ∈ l := by
  induction l with
  | nil => intro h; cases h
  | cons z zs ih =>
    intro h
    rw [List.lookup] at h
    split at h
    · have hk : k = z.1 := by
        rename_i heq
        exact eq_of_beq heq
      have hv : z.2 = v := Option.some_injective _ h
      exact List.mem_cons.mpr (Or.inl (by rw [hk, ← hv]))
    · exact List.mem_cons.mpr (Or.inr (ih h))

theorem round4_bounds {q : ℚ} (h0 : 0 ≤ q) (h1 : q ≤ 1) :
    0 ≤ round4 q ∧ round4 q ≤ 1 := by
  unfold round4
  constructor
  · apply div_nonneg _ (by norm_num)
    have : (0 : ℤ) ≤ (q * 10000 + 1/2).floor := by
      rw [Rat.le_floor]
      push_cast
      nlinarith
    exact_mod_cast this
  · rw [div_le_one (by norm_num)]
    have : (q * 10000 + 1/2).floor ≤ 10000 := by
      by_contra hcon
      push_neg at hcon
      have : ((10001 : ℤ) : ℚ) ≤ q * 10000 + 1/2 := Rat.le_floor.mp hcon
      push_cast at this
      nlinarith
    exact_mod_cast this

end RouteV3

namespace RouteV3

theorem runsByAux_chars {p : Char → Bool} :
    ∀ (l acc : List Char), (∀ c ∈ acc, p c = true) →
      ∀ r ∈ runsByAux p acc l, ∀ c ∈ r, p c = true := by
  intro l
  induction l with
  | nil =>
    intro acc hacc r hr
    unfold runsByAux at hr
    split at hr
    · cases hr
    · rw [List.mem_singleton] at hr
      subst hr
      intro c hc
      exact hacc c (List.mem_reverse.mp hc)
  | cons ch t ih =>
    intro acc hacc r hr
    unfold runsByAux at hr
    split at hr
    · refine ih (ch :: acc) ?_ r hr
      intro c hc
      rcases List.mem_cons.mp hc with h | h
      · subst h; assumption
      · exact hacc c h
    · split at hr
      · exact ih [] (by simp) r hr
      · rcases List.mem_cons.mp hr with h | h
        · subst h
          intro c hc
          exact hacc c (List.mem_reverse.mp hc)
        · exact ih [] (by simp) r h

theorem runsBy_chars {p : Char → Bool} {l : List Char} :
    ∀ r ∈ runsBy p l, ∀ c ∈ r, p c = true :=
  runsByAux_chars l [] (by simp)

theorem filter_eq_nil_of_none {α : Type} {p : α → Bool} :
    ∀ {l : List α}, (∀ a ∈ l, p a = false) → l.filter p = [] := by
  intro l
  induction l with
  | nil => intro _; rfl
  | cons x xs ih =>
    intro h
    rw [List.filter_cons, h x (List.mem_cons_self x xs)]
    exact ih fun a ha => h a (List.mem_cons.mpr (Or.inr ha))

end RouteV3

/-! ### Claim theorems -/

/-- C6: for every input string, the tokenizer returns, in order, the
maximal runs of ASCII letters of the lowercased input, dropping exactly
the runs of length at most 1 and the stop-words; every returned token is
a lowercase-letter word of length at least 2 outside the stop-word set;
and an input whose runs are all stop-words or short yields the empty
sequence. -/
theorem C6_tokenize_maximal_runs (text : String) :
    RouteV3.tokenize text
      = ((RouteV3.asciiRuns (RouteV3.lowerStr text)).map fun r => String.mk r).filter
          (fun t => !(RouteV3.STOPWORDS.contains t) && decide (1 < t.length))
    ∧ (∀ t ∈ RouteV3.tokenize text,
        1 < t.length ∧ RouteV3.STOPWORDS.contains t = false
          ∧ ∀ c ∈ t.data, RouteV3.isLowerAlpha c = true)
    ∧ ((∀ r ∈ RouteV3.asciiRuns (RouteV3.lowerStr text),
          r.length ≤ 1 ∨ RouteV3.STOPWORDS.contains (String.mk r) = true) →
        RouteV3.tokenize text = []) := by
  refine ⟨rfl, ?_, ?_⟩
  · intro t ht
    unfold RouteV3.tokenize at ht
    have hmem := List.mem_filter.mp ht
    have hpred := hmem.2
    rcases List.mem_map.mp hmem.1 with ⟨r, hr, rfl⟩
    simp only [Bool.and_eq_true, Bool.not_eq_true', decide_eq_true_eq] at hpred
    refine ⟨hpred.2, hpred.1, ?_⟩
    intro c hc
    exact RouteV3.runsBy_chars r hr c hc
  · intro hall
    unfold RouteV3.tokenize
    apply RouteV3.filter_eq_nil_of_none
    intro t ht
    rcases List.mem_map.mp ht with ⟨r, hr, rfl⟩
    rcases hall r hr with h | h
    · have hlen : (String.mk r).length ≤ 1 := h
      simp only [Bool.and_eq_false_iff, decide_eq_false_iff_not, not_lt]
      exact Or.inr hlen
    · simp only [Bool.and_eq_false_iff, Bool.not_eq_false']
      exact Or.inl h

/-- Witness for C6 at concrete inputs: "deploy" is a token of a concrete
task (length > 1, lowercase letters, not a stop-word), and a string made
of stop-words and one-letter runs tokenizes to the empty list. -/
theorem C6_tokenize_maximal_runs_witness :
    (1 < "deploy".length ∧ RouteV3.STOPWORDS.contains "deploy" = false
      ∧ ∀ c ∈ "deploy".data, RouteV3.isLowerAlpha c = true)
    ∧ RouteV3.tokenize "Of the, a IS x!" = [] :=
  ⟨(C6_tokenize_maximal_runs "Deploy the API").2.1 "deploy" (by decide),
   (C6_tokenize_maximal_runs "Of the, a IS x!").2.2 (by decide)⟩

/-- C10: for an agent id with no profile, the completion update is a
no-op: profiles are returned unchanged and nothing is persisted (the
boolean records whether the save path was reached). -/
theorem C10_unknown_agent_noop (idf_cache : List (String × ℚ))
    (profiles : List (String × Predictor.AgentProfile))
    (agent_id task_description : String) (success : Bool) (duration_minutes : ℚ)
    (h : profiles.lookup agent_id = none) :
    Predictor.update_profile_from_completion idf_cache profiles agent_id
      task_description success duration_minutes = (profiles, false) := by
  unfold Predictor.update_profile_from_completion
  rw [h]

/-- Witness for C10: updating a store that lacks the agent "ghost"
returns the store unchanged with no persistence. -/
theorem C10_unknown_agent_noop_witness :
    Predictor.update_profile_from_completion [] [] "ghost" "deploy the api" true 5
      = ([], false) :=
  C10_unknown_agent_noop [] [] "ghost" "deploy the api" true 5 (by decide)

/-- C9: a completion record whose task id already appears in the
learning log is skipped, leaving the whole learner state (profiles,
success rates, log) unchanged; consequently a task with a present id is
learned at most once: repeating the step is idempotent. -/
theorem C9_duplicate_completion_skipped (idf_cache : List (String × ℚ))
    (parseTime : String → Option ℚ) (now : String) (s : Predictor.LearnerState)
    (t : Predictor.QTask) :
    ((s.learning_log.any fun e => e.task_id == t.id.getD "") = true →
      Predictor.learnStep idf_cache parseTime now s t = s)
    ∧ (∀ x, t.id = some x →
        Predictor.learnStep idf_cache parseTime now
            (Predictor.learnStep idf_cache parseTime now s t) t
          = Predictor.learnStep idf_cache parseTime now s t) := by
  constructor
  · intro h
    unfold Predictor.learnStep
    rw [if_pos h]
  · intro x hx
    by_cases h1 : (s.learning_log.any fun e => e.task_id == t.id.getD "") = true
    · have hs : Predictor.learnStep idf_cache parseTime now s t = s := by
        unfold Predictor.learnStep
        rw [if_pos h1]
      rw [hs, hs]
    · rcases hext : Predictor.extract_learning_data parseTime t with _ | ld
      · have hs : Predictor.learnStep idf_cache parseTime now s t = s := by
          unfold Predictor.learnStep
          rw [if_neg h1, hext]
        rw [hs, hs]
      · have hid : ld.task_id = x := by
          unfold Predictor.extract_learning_data at hext
          split at hext
          · cases hext
          · dsimp only at hext
            split at hext
            · cases hext
            · have := Option.some_injective _ hext
              rw [← this, hx]
              rfl
        have hstep : Predictor.learnStep idf_cache parseTime now s t
            = Predictor.learn_from_task idf_cache now s ld := by
          unfold Predictor.learnStep
          rw [if_neg h1, hext]
        rw [hstep]
        unfold Predictor.learnStep
        rw [if_pos]
        unfold Predictor.learn_from_task
        rw [List.any_append]
        apply Bool.or_eq_true_iff.mpr
        right
        simp only [List.any_cons, List.any_nil, Bool.or_false]
        rw [hid, hx]
        simp

/-- Witness for C9: a learner whose log already contains task id "t1"
skips a re-presented record with id "t1", and the step is idempotent for
that record. -/
theorem C9_duplicate_completion_skipped_witness :
    (Predictor.learnStep [] (fun _ => none) "now"
        ⟨[⟨"ts", "t1", "kimi", true, 5, true⟩], []⟩
        ⟨some "t1", "completed", "", some "kimi", "deploy", "", "", ""⟩
      = ⟨[⟨"ts", "t1", "kimi", true, 5, true⟩], []⟩)
    ∧ (Predictor.learnStep [] (fun _ => none) "now"
        (Predictor.learnStep [] (fun _ => none) "now" ⟨[], []⟩
          ⟨some "t2", "completed", "", some "kimi", "deploy", "", "", ""⟩)
        ⟨some "t2", "completed", "", some "kimi", "deploy", "", "", ""⟩
      = Predictor.learnStep [] (fun _ => none) "now" ⟨[], []⟩
          ⟨some "t2", "completed", "", some "kimi", "deploy", "", "", ""⟩) :=
  ⟨(C9_duplicate_completion_skipped [] (fun _ => none) "now" _ _).1 (by decide),
   (C9_duplicate_completion_skipped [] (fun _ => none) "now" _ _).2 "t2" rfl⟩

set_option maxRecDepth 200000 in
/-- Counterexample to C1 as stated: with the non-negative weights tuple
(0, 2, 0, 0) the routed confidence for the task "deploy" is 2, outside
[0, 1].  The keyword signal is normalised to at most 1 per agent, but
the blend multiplies it by the raw weight, so any weight above 1 can
push the confidence above 1. -/
theorem C1_confidence_above_one :
    1 < (RouteV3.route "deploy" none (some (0, 2, 0, 0)) "tier3" none
          (fun _ => 0) none).confidence := by
  decide

/-- Counterexample to C2 as stated: with tier-2 weights (0, 0.5, 0.3, 0.2)
and the TF-IDF signal unavailable (no in-memory index and no index file),
the weights actually used keep `w_tfidf = 0.3`: the unavailable signal's
weight is neither set to 0 nor redistributed, its contribution is simply
dropped. -/
theorem C2_tfidf_weight_not_redistributed :
    (RouteV3.route "fix" none (some (0, 1/2, 3/10, 1/5)) "tier2" none
        (fun _ => 0) none).weights = some (0, 1/2, 3/10, 1/5)
    ∧ ((3 : ℚ)/10 ≠ 0) := by
  constructor
  · decide
  · decide

/-- Counterexample to C4 as stated: when the embedding signal is
requested but absent and the keyword weight is 0, the emitted result has
`tier = "error"`, not `tier = "fallback-error"`; the string
"fallback-error" is placed in the `method` field instead. -/
theorem C4_error_tier_string :
    (RouteV3.route "x" none (some (1, 0, 0, 0)) "tier1" none
        (fun _ => 0) none).tier = "error"
    ∧ (RouteV3.route "x" none (some (1, 0, 0, 0)) "tier1" none
        (fun _ => 0) none).method = "fallback-error"
    ∧ "error" ≠ "fallback-error" := by
  refine ⟨by decide, by decide, by decide⟩

set_option maxRecDepth 200000 in
/-- Counterexample to C8 as stated: inserting a missing capability term
is not capped, so a term weight above 10 (reachable: the IDF cache holds
`log(N/df) + 1`, which exceeds 10 for corpora above roughly 8100
documents) drives the inserted entry above 1.  Starting from a profile
whose capability vector is empty (all entries vacuously in [0, 1]), one
completion with cached IDF 20 for "authentication" produces the entry
("authentication", 2). -/
theorem C8_insert_uncapped :
    ((Predictor.update_profile_from_completion [("authentication", 20)]
        [("kimi", { agent_id := "kimi", emoji := "🔧", specialty := "Execution",
                    capability_vector := [], success_rate := 47/50,
                    avg_task_duration := 30, task_count := 0,
                    domains := [], keywords := [] })]
        "kimi" "authentication" true 5).1.lookup "kimi").map
      (fun p => p.capability_vector) = some [("authentication", 2)]
    ∧ ¬ ((2 : ℚ) ≤ 1) := by
  constructor
  · decide
  · decide

/-- C4 (amended): when the embedding signal is requested (positive
embedding weight) but absent and the keyword weight is 0, `route`
returns the fallback-error result: `method = "fallback-error"`,
`tier = "error"`, recommended agent "kimi" (the configured fallback) and
confidence 0; it never raises. -/
theorem C4_no_signal_error_result (task : String) (index : Option RouteV3.TfIdfIndex) (wt wc : ℚ)
    (tier : String) (tfidfSig : String → ℚ) (diskIndex : Option RouteV3.TfIdfIndex)
    (we : ℚ) (hwe : 0 < we) :
    RouteV3.route task index (some (we, 0, wt, wc)) tier none tfidfSig diskIndex
      = RouteV3.errorResult := by
  have hctx : RouteV3.routeCtx task index (some (we, 0, wt, wc)) tier none tfidfSig diskIndex
      = none := by
    cases diskIndex <;>
    · unfold RouteV3.routeCtx
      dsimp only [Option.getD]
      by_cases h1 : index.isNone = true ∧ 0 < wt
      · rw [if_pos h1]
        simp [hwe, lt_irrefl, hwe.ne']
      · rw [if_neg h1]
        simp [hwe, lt_irrefl, hwe.ne']
  unfold RouteV3.route
  rw [hctx]

/-- The tier field of the assembled result is the context tier. -/
theorem buildResult_tier (c : RouteV3.Ctx) : (RouteV3.buildResult c).tier = c.tier := rfl

/-- The weights field of the assembled result is the context weights. -/
theorem buildResult_weights (c : RouteV3.Ctx) :
    (RouteV3.buildResult c).weights = some (c.w_embed, c.w_kw, c.w_tfidf, c.w_cx) := rfl

/-- C2 (amended): when the embedding weight is positive, embeddings are
absent and the keyword weight is positive, `route` rebalances the used
weights to `(0, 0.8, 0.2, w_cx)` and marks the tier as
`tier2-keyword-fallback`.  (A missing TF-IDF signal, by contrast, is
simply dropped without redistribution — see the counterexample.) -/
theorem C2_embed_fallback_rebalance (task : String) (index : Option RouteV3.TfIdfIndex) (we wk wt wc : ℚ)
    (tier : String) (tfidfSig : String → ℚ) (diskIndex : Option RouteV3.TfIdfIndex)
    (hwe : 0 < we) (hwk : 0 < wk) :
    (RouteV3.route task index (some (we, wk, wt, wc)) tier none tfidfSig diskIndex).tier
        = "tier2-keyword-fallback"
    ∧ (RouteV3.route task index (some (we, wk, wt, wc)) tier none tfidfSig diskIndex).weights
        = some (0, 4/5, 1/5, wc) := by
  obtain ⟨c, hc, h2, h3, h4, h5, h6⟩ :
      ∃ c, RouteV3.routeCtx task index (some (we, wk, wt, wc)) tier none tfidfSig diskIndex
          = some c
        ∧ c.tier = "tier2-keyword-fallback" ∧ c.w_embed = 0 ∧ c.w_kw = 4/5
        ∧ c.w_tfidf = 1/5 ∧ c.w_cx = wc := by
    have hno : ¬(wk = 0 ∧ we = 0) := fun h => hwk.ne' h.1
    cases diskIndex <;>
    · unfold RouteV3.routeCtx
      dsimp only [Option.getD]
      by_cases h1 : index.isNone = true ∧ 0 < wt
      · rw [if_pos h1]
        first
        | (rw [if_neg hno, if_pos hwe, if_pos ⟨hwe, rfl⟩, if_pos hwk]
           exact ⟨_, rfl, rfl, rfl, rfl, rfl, rfl⟩)
        | (rw [if_pos hwe, if_pos ⟨hwe, rfl⟩, if_pos hwk]
           exact ⟨_, rfl, rfl, rfl, rfl, rfl, rfl⟩)
      · rw [if_neg h1, if_pos hwe, if_pos ⟨hwe, rfl⟩, if_pos hwk]
        exact ⟨_, rfl, rfl, rfl, rfl, rfl, rfl⟩
  unfold RouteV3.route
  rw [hc]
  rw [buildResult_tier, buildResult_weights, h2, h3, h4, h5, h6]
  exact ⟨rfl, rfl⟩

/-- Behaviour of the below-threshold branch as a function of the sorted
score list: runner-up adoption versus fallback. -/
theorem gateFallback_cases (fs : List (String × ℚ)) (conf : ℚ) (x : String × ℚ)
    (a₂ : String) (s₂ : ℚ) (rest : List (String × ℚ))
    (hsort : RouteV3.sortDesc fs = x :: (a₂, s₂) :: rest) :
    (((RouteV3.AGENT_THRESHOLDS.lookup a₂).getD (2/5) ≤ s₂ ∧ conf - s₂ < 1/10) →
      RouteV3.gateFallback fs conf = (a₂, s₂, "-threshold-adjusted"))
    ∧ (¬((RouteV3.AGENT_THRESHOLDS.lookup a₂).getD (2/5) ≤ s₂ ∧ conf - s₂ < 1/10) →
      RouteV3.gateFallback fs conf
        = (RouteV3.FALLBACK_AGENT, (fs.lookup RouteV3.FALLBACK_AGENT).getD (3/10),
           "-fallback")) := by
  unfold RouteV3.gateFallback
  rw [hsort]
  dsimp only
  constructor
  · intro h
    rw [if_pos h]
  · intro h
    rw [if_neg h]

/-- When the top blended score is below the winner threshold, the
assembled result is determined by `gateFallback`. -/
theorem buildResult_below_threshold (c : RouteV3.Ctx)
    (hgate : ((RouteV3.argmaxFirst (RouteV3.finalScoresList c)).getD ("kimi", 0)).2
      < (RouteV3.AGENT_THRESHOLDS.lookup
          ((RouteV3.argmaxFirst (RouteV3.finalScoresList c)).getD ("kimi", 0)).1).getD (2/5)) :
    (RouteV3.buildResult c).recommended_agent
      = (RouteV3.gateFallback (RouteV3.finalScoresList c)
          ((RouteV3.argmaxFirst (RouteV3.finalScoresList c)).getD ("kimi", 0)).2).1
    ∧ (RouteV3.buildResult c).confidence
      = RouteV3.round4 (RouteV3.gateFallback (RouteV3.finalScoresList c)
          ((RouteV3.argmaxFirst (RouteV3.finalScoresList c)).getD ("kimi", 0)).2).2.1
    ∧ (RouteV3.buildResult c).method
      = c.tier ++ "-ensemble" ++ (RouteV3.gateFallback (RouteV3.finalScoresList c)
          ((RouteV3.argmaxFirst (RouteV3.finalScoresList c)).getD ("kimi", 0)).2).2.2 := by
  have hr : RouteV3.buildResult c
      = { recommended_agent := (if ((RouteV3.argmaxFirst (RouteV3.finalScoresList c)).getD ("kimi", 0)).2
              < (RouteV3.AGENT_THRESHOLDS.lookup
                  ((RouteV3.argmaxFirst (RouteV3.finalScoresList c)).getD ("kimi", 0)).1).getD (2/5)
            then RouteV3.gateFallback (RouteV3.finalScoresList c)
                  ((RouteV3.argmaxFirst (RouteV3.finalScoresList c)).getD ("kimi", 0)).2
            else (((RouteV3.argmaxFirst (RouteV3.finalScoresList c)).getD ("kimi", 0)).1,
                  ((RouteV3.argmaxFirst (RouteV3.finalScoresList c)).getD ("kimi", 0)).2, "")).1
          confidence := RouteV3.round4 (if ((RouteV3.argmaxFirst (RouteV3.finalScoresList c)).getD ("kimi", 0)).2
              < (RouteV3.AGENT_THRESHOLDS.lookup
                  ((RouteV3.argmaxFirst (RouteV3.finalScoresList c)).getD ("kimi", 0)).1).getD (2/5)
            then RouteV3.gateFallback (RouteV3.finalScoresList c)
                  ((RouteV3.argmaxFirst (RouteV3.finalScoresList c)).getD ("kimi", 0)).2
            else (((RouteV3.argmaxFirst (RouteV3.finalScoresList c)).getD ("kimi", 0)).1,
                  ((RouteV3.argmaxFirst (RouteV3.finalScoresList c)).getD ("kimi", 0)).2, "")).2.1
          method := c.tier ++ "-ensemble" ++ (if ((RouteV3.argmaxFirst (RouteV3.finalScoresList c)).getD ("kimi", 0)).2
              < (RouteV3.AGENT_THRESHOLDS.lookup
                  ((RouteV3.argmaxFirst (RouteV3.finalScoresList c)).getD ("kimi", 0)).1).getD (2/5)
            then RouteV3.gateFallback (RouteV3.finalScoresList c)
                  ((RouteV3.argmaxFirst (RouteV3.finalScoresList c)).getD ("kimi", 0)).2
            else (((RouteV3.argmaxFirst (RouteV3.finalScoresList c)).getD ("kimi", 0)).1,
                  ((RouteV3.argmaxFirst (RouteV3.finalScoresList c)).getD ("kimi", 0)).2, "")).2.2
          tier := c.tier
          weights := some (c.w_embed, c.w_kw, c.w_tfidf, c.w_cx)
          scores := some ((RouteV3.sortDesc (RouteV3.finalScoresList c)).map
            fun p => (p.1, RouteV3.round4 p.2))
          error := none } := rfl
  rw [hr]
  dsimp only
  rw [if_pos hgate]
  exact ⟨rfl, rfl, rfl⟩

/-- C3: on the non-error path, whenever the top blended score falls
below the winner threshold, `route` adopts the runner-up
exactly when the runner-up meets its own threshold and trails by less
than 0.10 (method suffixed `-threshold-adjusted`), and otherwise adopts
the configured fallback agent (method suffixed `-fallback`). -/
theorem C3_threshold_gate (task : String) (index : Option RouteV3.TfIdfIndex)
    (weights? : Option (ℚ × ℚ × ℚ × ℚ)) (tier : String)
    (embedSig : Option (String → ℚ)) (tfidfSig : String → ℚ)
    (diskIndex : Option RouteV3.TfIdfIndex) (c : RouteV3.Ctx)
    (hc : RouteV3.routeCtx task index weights? tier embedSig tfidfSig diskIndex = some c)
    (hgate : ((RouteV3.argmaxFirst (RouteV3.finalScoresList c)).getD ("kimi", 0)).2
      < (RouteV3.AGENT_THRESHOLDS.lookup
          ((RouteV3.argmaxFirst (RouteV3.finalScoresList c)).getD ("kimi", 0)).1).getD (2/5))
    (x : String × ℚ) (a₂ : String) (s₂ : ℚ) (rest : List (String × ℚ))
    (hsort : RouteV3.sortDesc (RouteV3.finalScoresList c) = x :: (a₂, s₂) :: rest) :
    (((RouteV3.AGENT_THRESHOLDS.lookup a₂).getD (2/5) ≤ s₂
        ∧ ((RouteV3.argmaxFirst (RouteV3.finalScoresList c)).getD ("kimi", 0)).2 - s₂ < 1/10) →
      (RouteV3.route task index weights? tier embedSig tfidfSig diskIndex).recommended_agent = a₂
      ∧ (RouteV3.route task index weights? tier embedSig tfidfSig diskIndex).confidence
          = RouteV3.round4 s₂
      ∧ (RouteV3.route task index weights? tier embedSig tfidfSig diskIndex).method
          = c.tier ++ "-ensemble" ++ "-threshold-adjusted")
    ∧ (¬((RouteV3.AGENT_THRESHOLDS.lookup a₂).getD (2/5) ≤ s₂
        ∧ ((RouteV3.argmaxFirst (RouteV3.finalScoresList c)).getD ("kimi", 0)).2 - s₂ < 1/10) →
      (RouteV3.route task index weights? tier embedSig tfidfSig diskIndex).recommended_agent
          = RouteV3.FALLBACK_AGENT
      ∧ (RouteV3.route task index weights? tier embedSig tfidfSig diskIndex).confidence
          = RouteV3.round4
              (((RouteV3.finalScoresList c).lookup RouteV3.FALLBACK_AGENT).getD (3/10))
      ∧ (RouteV3.route task index weights? tier embedSig tfidfSig diskIndex).method
          = c.tier ++ "-ensemble" ++ "-fallback") := by
  have hroute : RouteV3.route task index weights? tier embedSig tfidfSig diskIndex
      = RouteV3.buildResult c := by
    unfold RouteV3.route
    rw [hc]
  obtain ⟨hb1, hb2, hb3⟩ := buildResult_below_threshold c hgate
  obtain ⟨hg1, hg2⟩ := gateFallback_cases (RouteV3.finalScoresList c)
    ((RouteV3.argmaxFirst (RouteV3.finalScoresList c)).getD ("kimi", 0)).2 x a₂ s₂ rest hsort
  constructor
  · intro h
    rw [hroute, hb1, hb2, hb3, hg1 h]
    exact ⟨rfl, rfl, rfl⟩
  · intro h
    rw [hroute, hb1, hb2, hb3, hg2 h]
    exact ⟨rfl, rfl, rfl⟩

set_option maxRecDepth 400000 in
/-- Witness for C3: a concrete below-threshold call that adopts the
runner-up copilot with method suffix `-threshold-adjusted`, and a
concrete call with no qualifying runner-up that falls back to kimi with
method suffix `-fallback`. -/
theorem C3_threshold_gate_witness :
    ((RouteV3.route "zzz" none (some (1, 0, 0, 0)) "tier1"
        (some fun a => if a = "kimi" then 17/50 else if a = "copilot" then 3/10 else 0)
        (fun _ => 0) none).recommended_agent = "copilot"
      ∧ (RouteV3.route "zzz" none (some (1, 0, 0, 0)) "tier1"
        (some fun a => if a = "kimi" then 17/50 else if a = "copilot" then 3/10 else 0)
        (fun _ => 0) none).method = "tier1" ++ "-ensemble" ++ "-threshold-adjusted")
    ∧ ((RouteV3.route "zzz" none (some (0, 1, 0, 0)) "tier3" none
        (fun _ => 0) none).recommended_agent = RouteV3.FALLBACK_AGENT
      ∧ (RouteV3.route "zzz" none (some (0, 1, 0, 0)) "tier3" none
        (fun _ => 0) none).method = "tier3" ++ "-ensemble" ++ "-fallback") := by
  constructor
  · have h := (C3_threshold_gate "zzz" none (some (1, 0, 0, 0)) "tier1"
      (some fun a => if a = "kimi" then 17/50 else if a = "copilot" then 3/10 else 0)
      (fun _ => 0) none
      ⟨"tier1", 1, 0, 0, 0,
        some fun a => if a = "kimi" then 17/50 else if a = "copilot" then 3/10 else 0,
        none, none, none⟩
      rfl (by decide) ("kimi", 17/50) "copilot" (3/10)
      [("claude", 0), ("codex", 0), ("ollama", 0)] (by decide)).1
      ⟨by decide, by decide⟩
    exact ⟨h.1, h.2.2⟩
  · have h := (C3_threshold_gate "zzz" none (some (0, 1, 0, 0)) "tier3" none (fun _ => 0) none
      ⟨"tier3", 0, 1, 0, 0, none, some (RouteV3.get_keyword_scores "zzz"), none, none⟩
      rfl (by decide) ("kimi", RouteV3.get_keyword_scores "zzz" "kimi") "claude"
      (RouteV3.get_keyword_scores "zzz" "claude")
      [("copilot", RouteV3.get_keyword_scores "zzz" "copilot"),
       ("codex", RouteV3.get_keyword_scores "zzz" "codex"),
       ("ollama", RouteV3.get_keyword_scores "zzz" "ollama")] (by decide)).2
      (by decide)
    exact ⟨h.1, h.2.2⟩

/-- Witness for C4 (amended): a concrete call with embedding weight 1,
keyword weight 0 and no embedding signal returns exactly the
fallback-error result. -/
theorem C4_no_signal_error_result_witness :
    RouteV3.route "implement the api" none (some (1, 0, 0, 0)) "tier1" none
      (fun _ => 0) none = RouteV3.errorResult :=
  C4_no_signal_error_result "implement the api" none 0 0 "tier1" (fun _ => 0) none 1
    (by norm_num)

/-- Witness for C2 (amended): a concrete hybrid call with embeddings
absent rebalances to weights (0, 0.8, 0.2, 0) and tier
`tier2-keyword-fallback`. -/
theorem C2_embed_fallback_rebalance_witness :
    (RouteV3.route "implement the api" none (some (35/100, 45/100, 1/5, 0)) "hybrid" none
        (fun _ => 0) none).tier = "tier2-keyword-fallback"
    ∧ (RouteV3.route "implement the api" none (some (35/100, 45/100, 1/5, 0)) "hybrid" none
        (fun _ => 0) none).weights = some (0, 4/5, 1/5, 0) :=
  C2_embed_fallback_rebalance "implement the api" none (35/100) (45/100) (1/5) 0 "hybrid"
    (fun _ => 0) none (by norm_num) (by norm_num)

/-- One capability-vector update step keeps entries in [0, 1] when the
term weight is in [0, 10]. -/
theorem capabilityUpdate_bounds (cv : List (String × ℚ)) (term : String) (weight : ℚ)
    (hcv : ∀ e ∈ cv, 0 ≤ e.2 ∧ e.2 ≤ 1) (hw0 : 0 ≤ weight) (hw10 : weight ≤ 10) :
    ∀ e ∈ Predictor.capabilityUpdate cv term weight, 0 ≤ e.2 ∧ e.2 ≤ 1 := by
  intro e he
  unfold Predictor.capabilityUpdate at he
  split at he
  · rename_i old hold
    rcases List.mem_map.mp he with ⟨q, hq, rfl⟩
    by_cases hqt : (q.1 == term) = true
    · rw [if_pos hqt]
      dsimp only
      have hold_mem := RouteV3.mem_of_lookup_eq_some hold
      have hob := hcv _ hold_mem
      constructor
      · exact RouteV3.qmin_nonneg _ _ (by norm_num)
          (by nlinarith [hob.1, hob.2])
      · exact RouteV3.qmin_le_left _ _
    · rw [if_neg hqt]
      exact hcv q hq
  · rcases List.mem_append.mp he with h | h
    · exact hcv e h
    · rw [List.mem_singleton] at h
      subst h
      constructor
      · dsimp only; nlinarith
      · dsimp only; nlinarith

/-- The capability-vector fold keeps entries in [0, 1] when every term
weight is in [0, 10]. -/
theorem capability_fold_bounds (tv : List (String × ℚ)) :
    ∀ (cv : List (String × ℚ)), (∀ e ∈ cv, 0 ≤ e.2 ∧ e.2 ≤ 1) →
      (∀ e ∈ tv, 0 ≤ e.2 ∧ e.2 ≤ 10) →
      ∀ e ∈ tv.foldl (fun cv p => Predictor.capabilityUpdate cv p.1 p.2) cv,
        0 ≤ e.2 ∧ e.2 ≤ 1 := by
  induction tv with
  | nil => intro cv hcv _ e he; exact hcv e he
  | cons p ps ih =>
    intro cv hcv htv e he
    rw [List.foldl_cons] at he
    refine ih _ ?_ (fun q hq => htv q (List.mem_cons.mpr (Or.inr hq))) e he
    have hp := htv p (List.mem_cons_self p ps)
    exact capabilityUpdate_bounds cv p.1 p.2 hcv hp.1 hp.2

/-- C8 (amended): the completion update keeps every capability weight in
[0, 1] provided each term weight of the task vector is in [0, 10]
(reinforcement is capped at 1.0; insertion at 0.1 times the weight is
not capped, hence the bound on weights); the seeded capability vectors
of the agent registry also have all entries in [0, 1]. -/
theorem C8_capability_bounds (idf_cache : List (String × ℚ))
    (profiles : List (String × Predictor.AgentProfile))
    (agent_id task_description : String) (success : Bool) (duration_minutes : ℚ)
    (hcap : ∀ pr ∈ profiles, ∀ e ∈ pr.2.capability_vector, 0 ≤ e.2 ∧ e.2 ≤ 1)
    (hw : ∀ e ∈ Predictor.vectorize_task idf_cache task_description "",
      0 ≤ e.2 ∧ e.2 ≤ 10) :
    (∀ pr ∈ (Predictor.update_profile_from_completion idf_cache profiles agent_id
        task_description success duration_minutes).1,
      ∀ e ∈ pr.2.capability_vector, 0 ≤ e.2 ∧ e.2 ≤ 1)
    ∧ (∀ d ∈ Predictor.AGENT_DEFINITIONS,
        ∀ e ∈ Predictor.build_capability_vector d.2, 0 ≤ e.2 ∧ e.2 ≤ 1) := by
  constructor
  · intro pr hpr
    unfold Predictor.update_profile_from_completion at hpr
    split at hpr
    · exact hcap pr hpr
    · rename_i profile hprofile
      dsimp only at hpr
      rcases List.mem_map.mp hpr with ⟨q, hq, rfl⟩
      by_cases hqa : (q.1 == agent_id) = true
      · rw [if_pos hqa]
        dsimp only
        apply capability_fold_bounds _ _ _ hw
        exact hcap _ (RouteV3.mem_of_lookup_eq_some hprofile)
      · rw [if_neg hqa]
        exact hcap q hq
  · decide

set_option maxRecDepth 400000 in
/-- Witness for C8 (amended): a concrete completion with term weight 8
keeps all capability entries in [0, 1]. -/
theorem C8_capability_bounds_witness :
    (∀ pr ∈ (Predictor.update_profile_from_completion [("authentication", 8)]
        [("kimi", { agent_id := "kimi", emoji := "🔧", specialty := "Execution",
                    capability_vector := [], success_rate := 47/50,
                    avg_task_duration := 30, task_count := 0,
                    domains := [], keywords := [] })]
        "kimi" "authentication" true 5).1,
      ∀ e ∈ pr.2.capability_vector, 0 ≤ e.2 ∧ e.2 ≤ 1)
    ∧ (∀ d ∈ Predictor.AGENT_DEFINITIONS,
        ∀ e ∈ Predictor.build_capability_vector d.2, 0 ≤ e.2 ∧ e.2 ≤ 1) :=
  C8_capability_bounds [("authentication", 8)]
    [("kimi", { agent_id := "kimi", emoji := "🔧", specialty := "Execution",
                capability_vector := [], success_rate := 47/50,
                avg_task_duration := 30, task_count := 0,
                domains := [], keywords := [] })]
    "kimi" "authentication" true 5 (by decide) (by decide)

/-- C5: for sparse vectors with non-negative weights the cosine
similarity lies in [0, 1], and it is 0 whenever either magnitude is 0
(in particular for an empty vector, whose key set is disjoint from
everything). -/
theorem C5_cosine_in_unit_interval (u v : RouteV3.SparseVec)
    (hu : ∀ k ∈ u.keys, 0 ≤ u.val k) (hv : ∀ k ∈ v.keys, 0 ≤ v.val k) :
    0 ≤ RouteV3.cosine_similarity_tfidf u v
    ∧ RouteV3.cosine_similarity_tfidf u v ≤ 1
    ∧ ((Real.sqrt (∑ k ∈ u.keys, u.val k ^ 2) = 0
        ∨ Real.sqrt (∑ k ∈ v.keys, v.val k ^ 2) = 0) →
      RouteV3.cosine_similarity_tfidf u v = 0) := by
  unfold RouteV3.cosine_similarity_tfidf
  by_cases hcom : u.keys ∩ v.keys = ∅
  · rw [if_pos hcom]
    refine ⟨le_refl 0, by norm_num, fun _ => rfl⟩
  · rw [if_neg hcom]
    by_cases hz : Real.sqrt (∑ k ∈ u.keys, u.val k ^ 2) = 0
        ∨ Real.sqrt (∑ k ∈ v.keys, v.val k ^ 2) = 0
    · rw [if_pos hz]
      refine ⟨le_refl 0, by norm_num, fun _ => rfl⟩
    · rw [if_neg hz]
      push_neg at hz
      have hna : 0 < Real.sqrt (∑ k ∈ u.keys, u.val k ^ 2) :=
        lt_of_le_of_ne (Real.sqrt_nonneg _) (Ne.symm hz.1)
      have hnb : 0 < Real.sqrt (∑ k ∈ v.keys, v.val k ^ 2) :=
        lt_of_le_of_ne (Real.sqrt_nonneg _) (Ne.symm hz.2)
      have hdot0 : 0 ≤ ∑ k ∈ u.keys ∩ v.keys, u.val k * v.val k :=
        Finset.sum_nonneg fun k hk =>
          mul_nonneg (hu k (Finset.mem_of_mem_inter_left hk))
            (hv k (Finset.mem_of_mem_inter_right hk))
      have hcs : (∑ k ∈ u.keys ∩ v.keys, u.val k * v.val k)
          ≤ Real.sqrt (∑ k ∈ u.keys ∩ v.keys, u.val k ^ 2)
            * Real.sqrt (∑ k ∈ u.keys ∩ v.keys, v.val k ^ 2) :=
        Real.sum_mul_le_sqrt_mul_sqrt _ _ _
      have hmono_u : (∑ k ∈ u.keys ∩ v.keys, u.val k ^ 2) ≤ ∑ k ∈ u.keys, u.val k ^ 2 :=
        Finset.sum_le_sum_of_subset_of_nonneg Finset.inter_subset_left
          fun k _ _ => sq_nonneg _
      have hmono_v : (∑ k ∈ u.keys ∩ v.keys, v.val k ^ 2) ≤ ∑ k ∈ v.keys, v.val k ^ 2 :=
        Finset.sum_le_sum_of_subset_of_nonneg Finset.inter_subset_right
          fun k _ _ => sq_nonneg _
      have hdot_le : (∑ k ∈ u.keys ∩ v.keys, u.val k * v.val k)
          ≤ Real.sqrt (∑ k ∈ u.keys, u.val k ^ 2)
            * Real.sqrt (∑ k ∈ v.keys, v.val k ^ 2) := by
        refine hcs.trans (mul_le_mul ?_ ?_ (Real.sqrt_nonneg _) (Real.sqrt_nonneg _))
        · exact Real.sqrt_le_sqrt hmono_u
        · exact Real.sqrt_le_sqrt hmono_v
      refine ⟨div_nonneg hdot0 (mul_nonneg hna.le hnb.le), ?_, fun hcon => ?_⟩
      · rw [div_le_one (mul_pos hna hnb)]
        exact hdot_le
      · rcases hcon with h | h
        · exact absurd h hz.1
        · exact absurd h hz.2

/-- Witness for C5: the empty sparse vector has cosine 0 with itself,
within [0, 1]. -/
theorem C5_cosine_in_unit_interval_witness :
    0 ≤ RouteV3.cosine_similarity_tfidf ⟨∅, fun _ => 0⟩ ⟨∅, fun _ => 0⟩
    ∧ RouteV3.cosine_similarity_tfidf ⟨∅, fun _ => 0⟩ ⟨∅, fun _ => 0⟩ = 0 :=
  ⟨(C5_cosine_in_unit_interval ⟨∅, fun _ => 0⟩ ⟨∅, fun _ => 0⟩ (by simp) (by simp)).1,
   (C5_cosine_in_unit_interval ⟨∅, fun _ => 0⟩ ⟨∅, fun _ => 0⟩ (by simp) (by simp)).2.2
     (Or.inl (by simp))⟩

/-- C7: index construction assigns each stored term (positive document
frequency) the IDF `log((N + 1) / (df(t) + 1)) + 1`, this IDF is
strictly positive, and every term occurring in any stored document
TF-IDF vector has a defined IDF in the index IDF map. -/
theorem C7_idf_positive_and_defined (data : List RouteV3.TrainingItem) (t : String) :
    (0 < RouteV3.df data t →
      RouteV3.idfMap data t
        = some (Real.log (((data.length : ℝ) + 1) / ((RouteV3.df data t : ℝ) + 1)) + 1)
      ∧ 0 < (RouteV3.idfMap data t).getD 0)
    ∧ (∀ it ∈ data, ∀ t' : String, (RouteV3.docTfidf data it t').isSome = true →
        (RouteV3.idfMap data t').isSome = true) := by
  constructor
  · intro hdf
    have heq : RouteV3.idfMap data t = some (RouteV3.idfVal data t) := by
      unfold RouteV3.idfMap
      rw [if_pos hdf]
    have hdfN : RouteV3.df data t ≤ data.length := by
      unfold RouteV3.df
      exact List.length_filter_le _ _
    have hpos : 0 < RouteV3.idfVal data t := by
      unfold RouteV3.idfVal
      have h1 : (1 : ℝ) ≤ ((data.length : ℝ) + 1) / ((RouteV3.df data t : ℝ) + 1) := by
        rw [le_div_iff₀ (by positivity)]
        have : (RouteV3.df data t : ℝ) ≤ (data.length : ℝ) := by exact_mod_cast hdfN
        linarith
      have h2 : 0 ≤ Real.log (((data.length : ℝ) + 1) / ((RouteV3.df data t : ℝ) + 1)) :=
        Real.log_nonneg h1
      linarith
    refine ⟨heq ▸ rfl, ?_⟩
    rw [heq]
    exact hpos
  · intro it hit t' hsome
    unfold RouteV3.docTfidf at hsome
    dsimp only at hsome
    split at hsome
    · rename_i hcontains
      have hdf : 0 < RouteV3.df data t' := by
        unfold RouteV3.df
        have hmem : it ∈ data.filter fun d => (RouteV3.tokenize d.task).contains t' :=
          List.mem_filter.mpr ⟨hit, hcontains⟩
        calc 0 < 1 := one_pos
        _ ≤ (data.filter fun d => (RouteV3.tokenize d.task).contains t').length :=
          List.length_pos.mpr (List.ne_nil_of_mem hmem)
      unfold RouteV3.idfMap
      rw [if_pos hdf]
      rfl
    · cases hsome

set_option maxRecDepth 100000 in
/-- Witness for C7 on a one-document corpus: the term "deploy" has a
positive, defined IDF. -/
theorem C7_idf_positive_and_defined_witness :
    0 < (RouteV3.idfMap [⟨"deploy api", "kimi"⟩] "deploy").getD 0
    ∧ (RouteV3.idfMap [⟨"deploy api", "kimi"⟩] "deploy").isSome = true :=
  ⟨((C7_idf_positive_and_defined [⟨"deploy api", "kimi"⟩] "deploy").1 (by decide)).2,
   (C7_idf_positive_and_defined [⟨"deploy api", "kimi"⟩] "deploy").2
     ⟨"deploy api", "kimi"⟩ (by decide) "deploy" (by decide)⟩

/-- Every blended final score lies in [0, 1] when the weights are
non-negative with zero complexity weight and total at most 1 and every
available signal is [0, 1]-valued on the registry. -/
theorem finalScores_bounds (c : RouteV3.Ctx)
    (hwe : 0 ≤ c.w_embed) (hwk : 0 ≤ c.w_kw) (hwt : 0 ≤ c.w_tfidf) (hwc : c.w_cx = 0)
    (hsum : c.w_embed + c.w_kw + c.w_tfidf ≤ 1)
    (hembed : ∀ f, c.embed_scores = some f → ∀ a ∈ RouteV3.AGENTS, 0 ≤ f a ∧ f a ≤ 1)
    (hkw : ∀ f, c.kw_scores = some f → ∀ a ∈ RouteV3.AGENTS, 0 ≤ f a ∧ f a ≤ 1)
    (htf : ∀ f, c.tfidf_scores = some f → ∀ a ∈ RouteV3.AGENTS, 0 ≤ f a ∧ f a ≤ 1) :
    ∀ p ∈ RouteV3.finalScoresList c, (0 ≤ p.2 ∧ p.2 ≤ 1) ∧ p.1 ∈ RouteV3.AGENTS := by
  intro p hp
  rcases List.mem_map.mp hp with ⟨a, ha, rfl⟩
  refine ⟨?_, ha⟩
  dsimp only
  have hterm : ∀ (w : ℚ) (s : Option (String → ℚ)), 0 ≤ w →
      (∀ f, s = some f → ∀ b ∈ RouteV3.AGENTS, 0 ≤ f b ∧ f b ≤ 1) →
      0 ≤ (match s with | some f => w * f a | none => 0)
      ∧ (match s with | some f => w * f a | none => 0) ≤ w := by
    intro w s hw hs
    cases s with
    | none => exact ⟨le_refl 0, hw⟩
    | some f =>
      have hf := hs f rfl a ha
      constructor
      · exact mul_nonneg hw hf.1
      · exact mul_le_of_le_one_right hw hf.2
  have he := hterm c.w_embed c.embed_scores hwe hembed
  have hk := hterm c.w_kw c.kw_scores hwk hkw
  have ht := hterm c.w_tfidf c.tfidf_scores hwt htf
  have hx : (match c.cx_scores with | some f => c.w_cx * f a | none => 0) = 0 := by
    cases c.cx_scores with
    | none => rfl
    | some f => dsimp only; rw [hwc, zero_mul]
  constructor
  · have := he.1
    have := hk.1
    have := ht.1
    rw [hx] at *
    nlinarith [he.1, hk.1, ht.1]
  · nlinarith [he.2, hk.2, ht.2, hx]

/-- The below-threshold branch always returns a registry agent with a
confidence in [0, 1], given in-range final scores. -/
theorem gateFallback_sound (fs : List (String × ℚ)) (conf : ℚ)
    (hfs : ∀ p ∈ fs, (0 ≤ p.2 ∧ p.2 ≤ 1) ∧ p.1 ∈ RouteV3.AGENTS) :
    (RouteV3.gateFallback fs conf).1 ∈ RouteV3.AGENTS
    ∧ 0 ≤ (RouteV3.gateFallback fs conf).2.1
    ∧ (RouteV3.gateFallback fs conf).2.1 ≤ 1 := by
  have hfb : ∀ p ∈ fs, p.1 = RouteV3.FALLBACK_AGENT → (0 ≤ p.2 ∧ p.2 ≤ 1) := by
    intro p hp _
    exact (hfs p hp).1
  have hfall : RouteV3.FALLBACK_AGENT ∈ RouteV3.AGENTS
      ∧ 0 ≤ (fs.lookup RouteV3.FALLBACK_AGENT).getD (3/10)
      ∧ (fs.lookup RouteV3.FALLBACK_AGENT).getD (3/10) ≤ 1 := by
    refine ⟨by decide, ?_, ?_⟩ <;>
    · cases hl : fs.lookup RouteV3.FALLBACK_AGENT with
      | none => norm_num
      | some v =>
        have := (hfs _ (RouteV3.mem_of_lookup_eq_some hl)).1
        simp only [Option.getD]
        first
        | exact this.1
        | exact this.2
  unfold RouteV3.gateFallback
  rcases hs : RouteV3.sortDesc fs with _ | ⟨x, _ | ⟨⟨a₂, s₂⟩, rest⟩⟩
  · exact hfall
  · exact hfall
  · dsimp only
    split
    · have hmem : (a₂, s₂) ∈ fs := by
        apply RouteV3.mem_of_mem_sortDesc
        rw [hs]
        exact List.mem_cons.mpr (Or.inr (List.mem_cons_self _ _))
      have := hfs _ hmem
      exact ⟨this.2, this.1.1, this.1.2⟩
    · exact hfall

/-- The assembled result recommends a registry agent with confidence in
[0, 1], under the weight and signal conditions. -/
theorem buildResult_bounds (c : RouteV3.Ctx)
    (hwe : 0 ≤ c.w_embed) (hwk : 0 ≤ c.w_kw) (hwt : 0 ≤ c.w_tfidf) (hwc : c.w_cx = 0)
    (hsum : c.w_embed + c.w_kw + c.w_tfidf ≤ 1)
    (hembed : ∀ f, c.embed_scores = some f → ∀ a ∈ RouteV3.AGENTS, 0 ≤ f a ∧ f a ≤ 1)
    (hkw : ∀ f, c.kw_scores = some f → ∀ a ∈ RouteV3.AGENTS, 0 ≤ f a ∧ f a ≤ 1)
    (htf : ∀ f, c.tfidf_scores = some f → ∀ a ∈ RouteV3.AGENTS, 0 ≤ f a ∧ f a ≤ 1) :
    (RouteV3.buildResult c).recommended_agent ∈ RouteV3.AGENTS
    ∧ 0 ≤ (RouteV3.buildResult c).confidence
    ∧ (RouteV3.buildResult c).confidence ≤ 1 := by
  have hfs := finalScores_bounds c hwe hwk hwt hwc hsum hembed hkw htf
  have htop : ((RouteV3.argmaxFirst (RouteV3.finalScoresList c)).getD ("kimi", 0)).1
        ∈ RouteV3.AGENTS
      ∧ 0 ≤ ((RouteV3.argmaxFirst (RouteV3.finalScoresList c)).getD ("kimi", 0)).2
      ∧ ((RouteV3.argmaxFirst (RouteV3.finalScoresList c)).getD ("kimi", 0)).2 ≤ 1 := by
    cases hm : RouteV3.argmaxFirst (RouteV3.finalScoresList c) with
  | none => exact ⟨by decide, le_refl 0, by norm_num⟩
    | some x =>
      have := hfs x (RouteV3.argmaxFirst_mem hm)
      exact ⟨this.2, this.1.1, this.1.2⟩
  have hgate := gateFallback_sound (RouteV3.finalScoresList c)
    ((RouteV3.argmaxFirst (RouteV3.finalScoresList c)).getD ("kimi", 0)).2 hfs
  have hr : RouteV3.buildResult c
      = { recommended_agent := (if ((RouteV3.argmaxFirst (RouteV3.finalScoresList c)).getD ("kimi", 0)).2
              < (RouteV3.AGENT_THRESHOLDS.lookup
                  ((RouteV3.argmaxFirst (RouteV3.finalScoresList c)).getD ("kimi", 0)).1).getD (2/5)
            then RouteV3.gateFallback (RouteV3.finalScoresList c)
                  ((RouteV3.argmaxFirst (RouteV3.finalScoresList c)).getD ("kimi", 0)).2
            else (((RouteV3.argmaxFirst (RouteV3.finalScoresList c)).getD ("kimi", 0)).1,
                  ((RouteV3.argmaxFirst (RouteV3.finalScoresList c)).getD ("kimi", 0)).2, "")).1
          confidence := RouteV3.round4 (if ((RouteV3.argmaxFirst (RouteV3.finalScoresList c)).getD ("kimi", 0)).2
              < (RouteV3.AGENT_THRESHOLDS.lookup
                  ((RouteV3.argmaxFirst (RouteV3.finalScoresList c)).getD ("kimi", 0)).1).getD (2/5)
            then RouteV3.gateFallback (RouteV3.finalScoresList c)
                  ((RouteV3.argmaxFirst (RouteV3.finalScoresList c)).getD ("kimi", 0)).2
            else (((RouteV3.argmaxFirst (RouteV3.finalScoresList c)).getD ("kimi", 0)).1,
                  ((RouteV3.argmaxFirst (RouteV3.finalScoresList c)).getD ("kimi", 0)).2, "")).2.1
          method := c.tier ++ "-ensemble" ++ (if ((RouteV3.argmaxFirst (RouteV3.finalScoresList c)).getD ("kimi", 0)).2
              < (RouteV3.AGENT_THRESHOLDS.lookup
                  ((RouteV3.argmaxFirst (RouteV3.finalScoresList c)).getD ("kimi", 0)).1).getD (2/5)
            then RouteV3.gateFallback (RouteV3.finalScoresList c)
                  ((RouteV3.argmaxFirst (RouteV3.finalScoresList c)).getD ("kimi", 0)).2
            else (((RouteV3.argmaxFirst (RouteV3.finalScoresList c)).getD ("kimi", 0)).1,
                  ((RouteV3.argmaxFirst (RouteV3.finalScoresList c)).getD ("kimi", 0)).2, "")).2.2
          tier := c.tier
          weights := some (c.w_embed, c.w_kw, c.w_tfidf, c.w_cx)
          scores := some ((RouteV3.sortDesc (RouteV3.finalScoresList c)).map
            fun p => (p.1, RouteV3.round4 p.2))
          error := none } := rfl
  rw [hr]
  dsimp only
  split
  · obtain ⟨hb0, hb1⟩ := RouteV3.round4_bounds hgate.2.1 hgate.2.2
    exact ⟨hgate.1, hb0, hb1⟩
  · obtain ⟨hb0, hb1⟩ := RouteV3.round4_bounds htop.2.1 htop.2.2
    exact ⟨htop.1, hb0, hb1⟩

/-- Case analysis of signal collection: the resolved weights are the
requested ones, the tier-3 demotion (1, 0 for keyword, TF-IDF), or the
keyword-fallback rebalance (0, 0.8, 0.2); each collected signal is
either absent or the corresponding computed map. -/
theorem routeCtx_inv (task : String) (index : Option RouteV3.TfIdfIndex)
    (weights? : Option (ℚ × ℚ × ℚ × ℚ)) (tier : String)
    (embedSig : Option (String → ℚ)) (tfidfSig : String → ℚ)
    (diskIndex : Option RouteV3.TfIdfIndex) (c : RouteV3.Ctx)
    (we wk wt wc : ℚ) (hres : weights?.getD (RouteV3.tierDefault tier) = (we, wk, wt, wc))
    (hc : RouteV3.routeCtx task index weights? tier embedSig tfidfSig diskIndex = some c) :
    c.w_cx = wc
    ∧ ((c.w_embed = we ∧ c.w_kw = wk ∧ c.w_tfidf = wt)
       ∨ (c.w_embed = we ∧ we = 0 ∧ wk = 0 ∧ c.w_kw = 1 ∧ c.w_tfidf = 0)
       ∨ (c.w_embed = 0 ∧ c.w_kw = 4/5 ∧ c.w_tfidf = 1/5))
    ∧ (c.embed_scores = none ∨ c.embed_scores = embedSig)
    ∧ (c.kw_scores = none ∨ c.kw_scores = some (RouteV3.get_keyword_scores task))
    ∧ (c.tfidf_scores = none ∨ c.tfidf_scores = some tfidfSig) := by
  unfold RouteV3.routeCtx at hc
  rw [hres] at hc
  dsimp only at hc
  cases diskIndex <;> split_ifs at hc <;>
    first
    | (obtain rfl : _ = c := Option.some.inj hc
       refine ⟨rfl, ?_, ?_, ?_, ?_⟩
       · first
         | exact Or.inl ⟨rfl, rfl, rfl⟩
         | exact Or.inr (Or.inr ⟨rfl, rfl, rfl⟩)
         | (refine Or.inr (Or.inl ⟨rfl, ?_, ?_, rfl, rfl⟩) <;> tauto)
       · first
         | exact Or.inl rfl
         | exact Or.inr rfl
       · first
         | exact Or.inl rfl
         | exact Or.inr rfl
       · first
         | exact Or.inl rfl
         | exact Or.inr rfl)

/-- Every blended final-score entry is keyed by a registry agent, for
any context. -/
theorem finalScores_agents (c : RouteV3.Ctx) :
    ∀ p ∈ RouteV3.finalScoresList c, p.1 ∈ RouteV3.AGENTS := by
  intro p hp
  rcases List.mem_map.mp hp with ⟨a, ha, rfl⟩
  exact ha

/-- The below-threshold branch always returns a registry agent, for any
registry-keyed score list. -/
theorem gateFallback_agent (fs : List (String × ℚ)) (conf : ℚ)
    (hfs : ∀ p ∈ fs, p.1 ∈ RouteV3.AGENTS) :
    (RouteV3.gateFallback fs conf).1 ∈ RouteV3.AGENTS := by
  unfold RouteV3.gateFallback
  rcases hs : RouteV3.sortDesc fs with _ | ⟨x, _ | ⟨⟨a₂, s₂⟩, rest⟩⟩
  · exact (by decide : RouteV3.FALLBACK_AGENT ∈ RouteV3.AGENTS)
  · exact (by decide : RouteV3.FALLBACK_AGENT ∈ RouteV3.AGENTS)
  · dsimp only
    split
    · have hmem : (a₂, s₂) ∈ fs := by
        apply RouteV3.mem_of_mem_sortDesc
        rw [hs]
        exact List.mem_cons.mpr (Or.inr (List.mem_cons_self _ _))
      exact hfs _ hmem
    · exact (by decide : RouteV3.FALLBACK_AGENT ∈ RouteV3.AGENTS)

/-- The assembled result always recommends a registry agent, with no
assumption on weights or signals. -/
theorem buildResult_agent (c : RouteV3.Ctx) :
    (RouteV3.buildResult c).recommended_agent ∈ RouteV3.AGENTS := by
  have h1 : (RouteV3.buildResult c).recommended_agent
      = (if ((RouteV3.argmaxFirst (RouteV3.finalScoresList c)).getD ("kimi", 0)).2
            < (RouteV3.AGENT_THRESHOLDS.lookup
                ((RouteV3.argmaxFirst (RouteV3.finalScoresList c)).getD ("kimi", 0)).1).getD (2/5)
          then RouteV3.gateFallback (RouteV3.finalScoresList c)
                ((RouteV3.argmaxFirst (RouteV3.finalScoresList c)).getD ("kimi", 0)).2
          else (((RouteV3.argmaxFirst (RouteV3.finalScoresList c)).getD ("kimi", 0)).1,
                ((RouteV3.argmaxFirst (RouteV3.finalScoresList c)).getD ("kimi", 0)).2, "")).1
      := rfl
  rw [h1]
  split
  · exact gateFallback_agent _ _ (finalScores_agents c)
  · cases hm : RouteV3.argmaxFirst (RouteV3.finalScoresList c) with
    | none => decide
    | some p => exact finalScores_agents c p (RouteV3.argmaxFirst_mem hm)

/-- C1 (amended): `route` always returns a Match Result whose
recommended agent is one of the five registry agents, with no
assumption on the call; and its confidence lies in [0, 1] provided the
resolved weights are non-negative with `w_cx = 0` and
`w_embed + w_kw + w_tfidf ≤ 1`, and the embedding and TF-IDF signal
maps take values in [0, 1] on the registry (the keyword signal is
normalised into [0, 1] by construction).  For arbitrary non-negative
weights the confidence bound fails — see the counterexample. -/
theorem C1_route_bounds (task : String) (index : Option RouteV3.TfIdfIndex)
    (weights? : Option (ℚ × ℚ × ℚ × ℚ)) (tier : String)
    (embedSig : Option (String → ℚ)) (tfidfSig : String → ℚ)
    (diskIndex : Option RouteV3.TfIdfIndex) :
    (RouteV3.route task index weights? tier embedSig tfidfSig diskIndex).recommended_agent
      ∈ RouteV3.AGENTS
    ∧ (∀ we wk wt wc : ℚ,
        weights?.getD (RouteV3.tierDefault tier) = (we, wk, wt, wc) →
        0 ≤ we → 0 ≤ wk → 0 ≤ wt → wc = 0 → we + wk + wt ≤ 1 →
        (∀ f, embedSig = some f → ∀ a ∈ RouteV3.AGENTS, 0 ≤ f a ∧ f a ≤ 1) →
        (∀ a ∈ RouteV3.AGENTS, 0 ≤ tfidfSig a ∧ tfidfSig a ≤ 1) →
        0 ≤ (RouteV3.route task index weights? tier embedSig tfidfSig diskIndex).confidence
        ∧ (RouteV3.route task index weights? tier embedSig tfidfSig
            diskIndex).confidence ≤ 1) := by
  constructor
  · unfold RouteV3.route
    cases hc : RouteV3.routeCtx task index weights? tier embedSig tfidfSig diskIndex with
    | none => decide
    | some c => exact buildResult_agent c
  · intro we wk wt wc hres hwe hwk hwt hwc hsum hembed htf
    unfold RouteV3.route
    cases hc : RouteV3.routeCtx task index weights? tier embedSig tfidfSig diskIndex with
    | none => exact ⟨by decide, by decide⟩
    | some c =>
      obtain ⟨hwc', hw', he', hk', ht'⟩ := routeCtx_inv task index weights? tier embedSig
        tfidfSig diskIndex c we wk wt wc hres hc
      have hkwb : ∀ f, c.kw_scores = some f → ∀ a ∈ RouteV3.AGENTS, 0 ≤ f a ∧ f a ≤ 1 := by
        intro f hf a ha
        rcases hk' with h | h
        · rw [hf] at h; cases h
        · rw [hf] at h
          have := Option.some.inj h
          subst this
          exact ⟨RouteV3.get_keyword_scores_nonneg task a,
            RouteV3.get_keyword_scores_le_one task ha⟩
      have htfb : ∀ f, c.tfidf_scores = some f → ∀ a ∈ RouteV3.AGENTS, 0 ≤ f a ∧ f a ≤ 1 := by
        intro f hf a ha
        rcases ht' with h | h
        · rw [hf] at h; cases h
        · rw [hf] at h
          have := Option.some.inj h
          subst this
          exact htf a ha
      have heb : ∀ f, c.embed_scores = some f → ∀ a ∈ RouteV3.AGENTS, 0 ≤ f a ∧ f a ≤ 1 := by
        intro f hf a ha
        rcases he' with h | h
        · rw [hf] at h; cases h
        · rw [hf] at h
          exact hembed f h.symm a ha
      have hwe' : 0 ≤ c.w_embed := by
        rcases hw' with ⟨h1, h2, h3⟩ | ⟨h1, h2, h3, h4, h5⟩ | ⟨h1, h2, h3⟩ <;> linarith
      have hwk' : 0 ≤ c.w_kw := by
        rcases hw' with ⟨h1, h2, h3⟩ | ⟨h1, h2, h3, h4, h5⟩ | ⟨h1, h2, h3⟩ <;> linarith
      have hwt' : 0 ≤ c.w_tfidf := by
        rcases hw' with ⟨h1, h2, h3⟩ | ⟨h1, h2, h3, h4, h5⟩ | ⟨h1, h2, h3⟩ <;> linarith
      have hsum' : c.w_embed + c.w_kw + c.w_tfidf ≤ 1 := by
        rcases hw' with ⟨h1, h2, h3⟩ | ⟨h1, h2, h3, h4, h5⟩ | ⟨h1, h2, h3⟩ <;> linarith
      exact (buildResult_bounds c hwe' hwk' hwt' (hwc ▸ hwc') hsum' heb hkwb htfb).2

/-- Witness for C1 (amended): the unconditional registry-membership
part applied at the counterexample input (weights (0, 2, 0, 0)), and
the conditional confidence bounds discharged at a concrete
tier-2-style call. -/
theorem C1_route_bounds_witness :
    (RouteV3.route "deploy" none (some (0, 2, 0, 0)) "tier3" none
        (fun _ => 0) none).recommended_agent ∈ RouteV3.AGENTS
    ∧ 0 ≤ (RouteV3.route "deploy the api" none (some (0, 1/2, 1/2, 0)) "tier2" none
        (fun _ => 0) none).confidence
    ∧ (RouteV3.route "deploy the api" none (some (0, 1/2, 1/2, 0)) "tier2" none
        (fun _ => 0) none).confidence ≤ 1 :=
  ⟨(C1_route_bounds "deploy" none (some (0, 2, 0, 0)) "tier3" none (fun _ => 0) none).1,
   (C1_route_bounds "deploy the api" none (some (0, 1/2, 1/2, 0)) "tier2" none
      (fun _ => 0) none).2 0 (1/2) (1/2) 0 rfl (by norm_num) (by norm_num) (by norm_num)
      rfl (by norm_num) (fun f hf => nomatch hf) (fun a _ => ⟨le_refl 0, by norm_num⟩)⟩
